import Mathlib

/-!
Verification of the Bond13 query-routing system.

This file gives a shallow embedding of the four Python modules of the repository
(orchestrator-implementation.py, bond-directory-agent.py, bond-finder-agent.py,
bond-screener-agent.py) and proves properties of the embedded definitions.

The Python code drives all query understanding through the standard `re`
module, so the embedding starts with a small regular-expression engine whose
matching order reproduces the CPython backtracking engine on the constructs
the repository uses: character classes, concatenation, alternation
(left-preferring), greedy and lazy repetition, capture groups, leftmost
search, and non-overlapping findall.  All patterns in the source are compiled
with re.IGNORECASE, which the embedding bakes into the character classes.
-/

set_option maxHeartbeats 4000000
set_option maxRecDepth 100000

/-- Regular expressions as used by the repository: empty string, a character
class given by a predicate, concatenation, alternation (left alternative
preferred), greedy star, lazy star, and a numbered capture group. -/
inductive RE where
  | eps
  | cls (p : Char → Bool)
  | seq (a b : RE)
  | alt (a b : RE)
  | star (r : RE)
  | lstar (r : RE)
  | grp (i : Nat) (r : RE)

/-- Capture-group environment: group index paired with the captured text.
Entries recorded later in matching order appear first, so lookup by first
occurrence yields the most recent capture, as in CPython. -/
abbrev GEnv := List (Nat × List Char)

/-- A size measure used to compute sufficient matching fuel. -/
def reSize : RE → Nat
  | .eps => 1
  | .cls _ => 1
  | .seq a b => 1 + reSize a + reSize b
  | .alt a b => 1 + reSize a + reSize b
  | .star r => 1 + reSize r
  | .lstar r => 1 + reSize r
  | .grp _ r => 1 + reSize r

/-- All ways for a regular expression to consume a prefix of the input, in
CPython backtracking priority order.  Each element is the remaining suffix
together with the captures made on the consumed prefix.  The head of the
list is the parse the CPython engine commits to at this start position.
The extra fuel argument makes the recursion structural; `reSize r + s.length`
is always a sufficient amount (proved below). -/
def mtchF : Nat → RE → List Char → List (List Char × GEnv)
  | 0, _, _ => []
  | _ + 1, .eps, s => [(s, [])]
  | _ + 1, .cls _, [] => []
  | _ + 1, .cls p, c :: rest => if p c then [(rest, [])] else []
  | fuel + 1, .alt a b, s => mtchF fuel a s ++ mtchF fuel b s
  | fuel + 1, .grp i r, s =>
      (mtchF fuel r s).map (fun x => (x.1, (i, s.take (s.length - x.1.length)) :: x.2))
  | fuel + 1, .seq a b, s =>
      (mtchF fuel a s).flatMap (fun x => (mtchF fuel b x.1).map (fun y => (y.1, y.2 ++ x.2)))
  | fuel + 1, .star r, s =>
      (((mtchF fuel r s).filter (fun x => x.1.length < s.length)).flatMap
        (fun x => (mtchF fuel (.star r) x.1).map (fun y => (y.1, y.2 ++ x.2))))
      ++ [(s, [])]
  | fuel + 1, .lstar r, s =>
      (s, []) ::
      (((mtchF fuel r s).filter (fun x => x.1.length < s.length)).flatMap
        (fun x => (mtchF fuel (.lstar r) x.1).map (fun y => (y.1, y.2 ++ x.2))))

/-- Matching with sufficient fuel. -/
def mtch (r : RE) (s : List Char) : List (List Char × GEnv) :=
  mtchF (reSize r + s.length + 1) r s

/-- CPython `re.search`: scan start positions left to right, and at the first
position where the pattern can match, commit to the first parse of the engine.
Returns the remaining suffix after the match together with the captures. -/
def searchFrom (r : RE) : List Char → Option (List Char × GEnv)
  | [] => (mtch r []).head?
  | s@(_ :: rest) =>
    match (mtch r s).head? with
    | some x => some x
    | none => searchFrom r rest

/-- Boolean form of `re.search`: does the pattern match anywhere? -/
def bsearch (r : RE) (s : List Char) : Bool := (searchFrom r s).isSome

/-- Fueled body of `findallCount`; the fuel makes the recursion structural. -/
def findallF (r : RE) : Nat → List Char → Nat
  | 0, _ => 0
  | _ + 1, [] => if (mtch r []).isEmpty then 0 else 1
  | fuel + 1, s@(_ :: rest) =>
    match (mtch r s).head? with
    | some x =>
      if x.1.length < s.length then 1 + findallF r fuel x.1
      else 1 + findallF r fuel rest
    | none => findallF r fuel rest

/-- Number of matches `re.findall` returns: repeated leftmost search, each
next search resuming after the end of the previous match (advancing one
character when a match is empty, as CPython does). -/
def findallCount (r : RE) (s : List Char) : Nat :=
  findallF r (s.length + 1) s

/-- Captured text of group `i` in a search result (CPython `m.group(i)`). -/
def groupGet (res : Option (List Char × GEnv)) (i : Nat) : Option (List Char) :=
  match res with
  | none => none
  | some (_, g) => (g.find? (fun e => e.1 == i)).map (fun e => e.2)

/- Character classes.  Every pattern in the source is compiled with
re.IGNORECASE, so letter ranges accept both cases. -/

/-- ASCII lowercase letter. -/
def lowAZ (c : Char) : Bool := 'a' ≤ c && c ≤ 'z'

/-- ASCII uppercase letter. -/
def upAZ (c : Char) : Bool := 'A' ≤ c && c ≤ 'Z'

/-- ASCII digit, the class `\d` restricted to ASCII input. -/
def digitC (c : Char) : Bool := '0' ≤ c && c ≤ '9'

/-- ASCII letter. -/
def letterC (c : Char) : Bool := lowAZ c || upAZ c

/-- The class `[A-Z0-9]` under re.IGNORECASE: letters of either case or digits. -/
def alnumCI (c : Char) : Bool := letterC c || digitC c

/-- The class `\s` restricted to ASCII whitespace. -/
def wsC (c : Char) : Bool :=
  c == ' ' || c == '\t' || c == '\n' || c == '\r' || c == '\x0b' || c == '\x0c'

/-- The class `.` without re.DOTALL: any character except a newline. -/
def dotC (c : Char) : Bool := c != '\n'

/-- The class `[A-Za-z\s]` used for issuer and company names. -/
def letterOrWs (c : Char) : Bool := letterC c || wsC c

/-- A single literal character matched case-insensitively; `c` is given in
lowercase. -/
def chCI (c : Char) : RE := .cls (fun x => x.toLower == c)

/-- A literal word matched case-insensitively (the word is written lowercase). -/
def litCI (s : String) : RE := (s.toList.map chCI).foldr .seq .eps

/-- Greedy `+`. -/
def rePlus (r : RE) : RE := .seq r (.star r)

/-- Lazy `+?`. -/
def lazyPlus (r : RE) : RE := .seq r (.lstar r)

/-- Greedy option, the regex `?`. -/
def reOpt (r : RE) : RE := .alt r .eps

/-- Alternation of a nonempty list, preferring earlier entries. -/
def altL : List RE → RE
  | [] => .eps
  | [r] => r
  | r :: rs => .alt r (altL rs)

/-- Exactly `n` repetitions, for `\d{4}`. -/
def reRep (n : Nat) (r : RE) : RE := (List.replicate n r).foldr .seq .eps

/-- Does the regular expression match the whole string? -/
def emtch (r : RE) (s : List Char) : Bool :=
  (mtch r s).any (fun x => x.1.isEmpty)


/- String utilities mirroring the Python operations the agents use. -/

/-- Is the first list a prefix of the second? -/
def prefixOfB : List Char → List Char → Bool
  | [], _ => true
  | _ :: _, [] => false
  | a :: as, b :: bs => a == b && prefixOfB as bs

/-- Is the first list a contiguous sublist of the second?  This is the
semantics of pandas `str.contains` for the plain-text patterns the agents
pass it (extracted names contain only letters and whitespace, so no regex
metacharacters arise). -/
def substrB : List Char → List Char → Bool
  | p, [] => prefixOfB p []
  | p, s@(_ :: rest) => prefixOfB p s || substrB p rest

/-- Lowercased character list of a string. -/
def lowerS (s : String) : List Char := s.toList.map Char.toLower

/-- pandas `column.str.contains(pat, case=False, na=False)` on one cell:
case-insensitive substring containment. -/
def containsCI (hay pat : String) : Bool := substrB (lowerS pat) (lowerS hay)

/-- Case-sensitive containment, for `str.contains(rating, regex=False)`. -/
def containsCS (hay pat : String) : Bool := substrB pat.toList hay.toList

/-- Python `str.strip()` on a character list. -/
def stripL (s : List Char) : List Char :=
  ((s.dropWhile wsC).reverse.dropWhile wsC).reverse

/-- Python `str.strip()`. -/
def pyStrip (s : String) : String := ⟨stripL s.toList⟩

/-- Python `str.split()` with no argument: split on runs of whitespace. -/
def pySplit (s : String) : List String :=
  ((s.toList.splitOnP wsC).filter (fun w => !w.isEmpty)).map (fun w => ⟨w⟩)

/-- Digits to a natural number, for Python `int` on a digit token. -/
def parseNatL (s : List Char) : Nat :=
  s.foldl (fun n c => n * 10 + (c.toNat - '0'.toNat)) 0

/-- Python `float()` on a token matched by `\d+\.?\d*`. -/
def pyFloat (s : List Char) : ℚ :=
  let intPart := s.takeWhile digitC
  let rest := s.dropWhile digitC
  let frac :=
    match rest with
    | '.' :: fs => fs
    | _ => []
  (parseNatL intPart : ℚ) + (parseNatL frac : ℚ) / ((10 : ℚ) ^ frac.length)

/-- Rendering of a number in a templated message. -/
def ratStr (x : ℚ) : String := toString x

/-- Minimum of a list of rationals (only applied to nonempty columns). -/
def qListMin : List ℚ → ℚ
  | [] => 0
  | x :: xs => xs.foldl min x

/-- Maximum of a list of rationals (only applied to nonempty columns). -/
def qListMax : List ℚ → ℚ
  | [] => 0
  | x :: xs => xs.foldl max x

/- ======================================================================
Orchestrator (src/orchestrator-implementation.py).

self.agent_patterns, lines 15-46.  Each Lean pattern term is written to
mirror one Python regex literal; the comment above each gives the literal.
====================================================================== -/

/-- The shared shape `ISIN\s+([A-Z0-9]+)` with a chosen group number. -/
def isinSub (k : Nat) : RE :=
  .seq (litCI "isin") (.seq (rePlus (.cls wsC)) (.grp k (rePlus (.cls alnumCI))))

/-- Regex `ISIN\s+([A-Z0-9]+)` -/
def patIsin : RE := isinSub 1

/-- Regex `(show|find|get|details|information).+(ISIN|bond)` -/
def patShowIsin : RE :=
  .seq (.grp 1 (altL [litCI "show", litCI "find", litCI "get", litCI "details", litCI "information"]))
    (.seq (rePlus (.cls dotC)) (.grp 2 (.alt (litCI "isin") (litCI "bond"))))

/-- Regex `(issuer|coupon|maturity|face value|rating).*bond` -/
def patAttrBond : RE :=
  .seq (.grp 1 (altL [litCI "issuer", litCI "coupon", litCI "maturity", litCI "face value", litCI "rating"]))
    (.seq (.star (.cls dotC)) (litCI "bond"))

/-- Regex `(debenture|trustee)` -/
def patDebTrustee : RE := .grp 1 (.alt (litCI "debenture") (litCI "trustee"))

/-- Regex `(issuances|issued|bonds).+(by|from)\s+([A-Za-z\s]+)` -/
def patIssuedBy : RE :=
  .seq (.grp 1 (altL [litCI "issuances", litCI "issued", litCI "bonds"]))
  (.seq (rePlus (.cls dotC))
  (.seq (.grp 2 (.alt (litCI "by") (litCI "from")))
  (.seq (rePlus (.cls wsC)) (.grp 3 (rePlus (.cls letterOrWs))))))

/-- Regex `(available|find|where.+buy).+(bonds|yield)` -/
def patAvailBonds : RE :=
  .seq (.grp 1 (altL [litCI "available", litCI "find",
      .seq (litCI "where") (.seq (rePlus (.cls dotC)) (litCI "buy"))]))
    (.seq (rePlus (.cls dotC)) (.grp 2 (.alt (litCI "bonds") (litCI "yield"))))

/-- Regex `(compare|best|highest).+(yield|platform)` -/
def patBestYield : RE :=
  .seq (.grp 1 (altL [litCI "compare", litCI "best", litCI "highest"]))
    (.seq (rePlus (.cls dotC)) (.grp 2 (.alt (litCI "yield") (litCI "platform"))))

/-- Regex `(bonds|yield).+(platform|SMEST|FixedIncome)` -/
def patBondsPlatform : RE :=
  .seq (.grp 1 (.alt (litCI "bonds") (litCI "yield")))
    (.seq (rePlus (.cls dotC))
      (.grp 2 (altL [litCI "platform", litCI "smest", litCI "fixedincome"])))

/-- Regex `bond\s+finder` -/
def patBondFinder : RE :=
  .seq (litCI "bond") (.seq (rePlus (.cls wsC)) (litCI "finder"))

/-- Regex `(cash\s+flow|payment|schedule).+(ISIN|bond)` -/
def patCashIsin : RE :=
  .seq (.grp 1 (altL [.seq (litCI "cash") (.seq (rePlus (.cls wsC)) (litCI "flow")),
      litCI "payment", litCI "schedule"]))
    (.seq (rePlus (.cls dotC)) (.grp 2 (.alt (litCI "isin") (litCI "bond"))))

/-- Regex `(maturity|maturing|redemption).+(date|in|on)` -/
def patMatDate : RE :=
  .seq (.grp 1 (altL [litCI "maturity", litCI "maturing", litCI "redemption"]))
    (.seq (rePlus (.cls dotC)) (.grp 2 (altL [litCI "date", litCI "in", litCI "on"])))

/-- Regex `(interest|coupon).+(payment|date)` -/
def patIntPay : RE :=
  .seq (.grp 1 (.alt (litCI "interest") (litCI "coupon")))
    (.seq (rePlus (.cls dotC)) (.grp 2 (.alt (litCI "payment") (litCI "date"))))

/-- Regex `(company|financial|analysis|metrics|ratio)` -/
def patCompany : RE :=
  .grp 1 (altL [litCI "company", litCI "financial", litCI "analysis", litCI "metrics", litCI "ratio"])

/-- Regex `(EPS|debt|equity|EBITDA|interest\s+coverage|ratio)` -/
def patEps : RE :=
  .grp 1 (altL [litCI "eps", litCI "debt", litCI "equity", litCI "ebitda",
    .seq (litCI "interest") (.seq (rePlus (.cls wsC)) (litCI "coverage")), litCI "ratio"])

/-- Regex `(compare|pros|cons|lenders|news|rating|sector|industry)` -/
def patComparePros : RE :=
  .grp 1 (altL [litCI "compare", litCI "pros", litCI "cons", litCI "lenders",
    litCI "news", litCI "rating", litCI "sector", litCI "industry"])

/-- Regex `(current\s+ratio|growth\s+rate)` -/
def patCurrentRatio : RE :=
  .grp 1 (.alt (.seq (litCI "current") (.seq (rePlus (.cls wsC)) (litCI "ratio")))
    (.seq (litCI "growth") (.seq (rePlus (.cls wsC)) (litCI "rate"))))

/-- Regex `(calculate|computation|calculation).+(yield|price|consideration)` -/
def patCalc : RE :=
  .seq (.grp 1 (altL [litCI "calculate", litCI "computation", litCI "calculation"]))
    (.seq (rePlus (.cls dotC)) (.grp 2 (altL [litCI "yield", litCI "price", litCI "consideration"])))

/-- Regex `(clean\s+price|consideration).+(bond|ISIN)` -/
def patCleanPrice : RE :=
  .seq (.grp 1 (.alt (.seq (litCI "clean") (.seq (rePlus (.cls wsC)) (litCI "price")))
      (litCI "consideration")))
    (.seq (rePlus (.cls dotC)) (.grp 2 (.alt (litCI "bond") (litCI "isin"))))

/-- Regex `price\s+to\s+yield` -/
def patPriceToYield : RE :=
  .seq (litCI "price") (.seq (rePlus (.cls wsC))
    (.seq (litCI "to") (.seq (rePlus (.cls wsC)) (litCI "yield"))))

/-- Regex `yield\s+to\s+price` -/
def patYieldToPrice : RE :=
  .seq (litCI "yield") (.seq (rePlus (.cls wsC))
    (.seq (litCI "to") (.seq (rePlus (.cls wsC)) (litCI "price"))))

/-- The pattern table of OrchestratorAgent.agent_patterns (lines 15-46), in
dict insertion order. -/
def agentPatterns : List (String × List RE) :=
  [("bond_directory", [patIsin, patShowIsin, patAttrBond, patDebTrustee, patIssuedBy]),
   ("bond_finder", [patAvailBonds, patBestYield, patBondsPlatform, patBondFinder]),
   ("cash_flow", [patCashIsin, patMatDate, patIntPay]),
   ("bond_screener", [patCompany, patEps, patComparePros, patCurrentRatio]),
   ("yield_calculator", [patCalc, patCleanPrice, patPriceToYield, patYieldToPrice])]

/-- The registered agent keys, in registration order (the standard
instantiation registers one specialized agent per pattern-table key). -/
def agentTypes : List String :=
  ["bond_directory", "bond_finder", "cash_flow", "bond_screener", "yield_calculator"]

/-- Score of one agent for a query: total number of `re.findall` matches
over the pattern set of the agent (lines 61-65: each pattern contributes
`len(matches)`). -/
def scoreOf (q : String) (pats : List RE) : Nat :=
  (pats.map (fun p => findallCount p q.toList)).sum

/-- The score table built by determine_agent (lines 58-65). -/
def scoreTable (q : String) : List (String × Nat) :=
  agentPatterns.map (fun ap => (ap.1, scoreOf q ap.2))

/-- OrchestratorAgent.determine_agent (lines 48-72): pick the first agent
attaining the maximal score when the maximum is positive, otherwise default
to bond_directory.  In Python, `max(scores, key=scores.get)` returns the first
key attaining the maximum in dict insertion order. -/
def determineAgent (q : String) : String :=
  let scores := scoreTable q
  let maxScore : Nat := (scores.map (fun x => x.2)).foldl max 0
  if 0 < maxScore then
    (((scores.find? (fun x => x.2 == maxScore)).map (fun x => x.1)).getD "bond_directory")
  else "bond_directory"

/-- The pattern list of one agent key in the orchestrator table
(the dict lookup `self.agent_patterns[agent_type]` on line 111). -/
def patsOfAgent (a : String) : List RE :=
  ((agentPatterns.find? (fun x => x.1 == a)).map (fun x => x.2)).getD []

/-- The boolean per-pattern match count of the confidence re-check
(lines 113-116: one `re.search` per pattern, counting hits). -/
def boolMatchCount (q : String) (pats : List RE) : Nat :=
  (pats.filter (fun p => bsearch p q.toList)).length

/-- OrchestratorAgent._calculate_confidence (lines 99-122).  The secondary
pass counts, per pattern of the chosen agent, whether `re.search` succeeds
(boolean, not the findall multiplicity); `total_patterns` on line 110 is
computed but unused in the source and is therefore not modelled. -/
def calcConfidence (q : String) (agentType : String) : ℚ :=
  if boolMatchCount q (patsOfAgent agentType) = 0 then 1/2
  else min (1/2 + ((boolMatchCount q (patsOfAgent agentType) : ℚ)
    / ((patsOfAgent agentType).length : ℚ)) * (1/2)) 1

/-- The routing metadata OrchestratorAgent.process_query (lines 74-97)
attaches to the dispatched agent response.  The inner response payload is the
own result of the chosen agent and is modelled by the per-agent process functions
below. -/
structure OrchMeta where
  agent_type : String
  confidence : ℚ
  query : String
deriving DecidableEq

/-- The metadata part of OrchestratorAgent.process_query. -/
def orchMeta (q : String) : OrchMeta :=
  { agent_type := determineAgent q
    confidence := calcConfidence q (determineAgent q)
    query := q }


/- ======================================================================
Data model for the bonds table (src/bond-directory-agent.py).
====================================================================== -/

/-- A calendar date, the value pandas `to_datetime` produces. -/
structure PDate where
  year : Nat
  month : Nat
  day : Nat
deriving DecidableEq

/-- The redemption_date column cell: the raw CSV string, or, once a handler
has run `pd.to_datetime` over the column, a parsed datetime
(`none` models NaT under coerced errors). -/
inductive RedVal where
  | s (v : String)
  | dt (v : Option PDate)
deriving DecidableEq

/-- Modelled from the spec: date parsing is an external-collaborator concern
(spec section 1 excludes date-arithmetic helpers; section 6 makes the Record
Store loader external), so `pd.to_datetime` with coerced errors is
modelled on ISO `YYYY-MM-DD` cells and yields `none` (NaT) elsewhere. -/
def parseDate (v : List Char) : Option PDate :=
  match v with
  | [y1, y2, y3, y4, '-', m1, m2, '-', d1, d2] =>
    if [y1, y2, y3, y4, m1, m2, d1, d2].all digitC then
      some ⟨parseNatL [y1, y2, y3, y4], parseNatL [m1, m2], parseNatL [d1, d2]⟩
    else none
  | _ => none

/-- Python `pd.to_datetime` with coerced errors on a redemption_date cell. -/
def pdToDatetime : RedVal → Option PDate
  | .s v => parseDate v.toList
  | .dt v => v

/-- Rendering a redemption_date cell inside an f-string. -/
def renderRed : RedVal → String
  | .s v => v
  | .dt none => "NaT"
  | .dt (some d) =>
      toString d.year ++ "-" ++ toString d.month ++ "-" ++ toString d.day ++ " 00:00:00"

/-- Python `strftime` with the day-month-year format on a parsed date. -/
def strfDMY (d : PDate) : String :=
  toString d.day ++ "-" ++ toString d.month ++ "-" ++ toString d.year

/-- One row of the bonds database (columns per spec section 6). -/
structure BondRec where
  isin : String
  issuer_name : String
  issuer_type : String
  sector : String
  coupon_rate : ℚ
  instrument_name : String
  face_value : String
  issue_size : String
  redemption_date : RedVal
  credit_rating : String
  listing_details : String
  key_documents : String
  status : String
  security_type : String
deriving DecidableEq

/-- Result dictionary shape shared by the directory handlers (the response
envelope of spec section 6; optional fields model keys absent from some
response dictionaries). -/
structure DirResult where
  response_type : String
  message : String
  data : Option (List BondRec) := none
  record : Option BondRec := none
  count : Option Nat := none
  isin : Option String := none
  issuer : Option String := none
  year : Option String := none
deriving DecidableEq

/- Response templates, BondDirectoryAgent._load_response_templates
(lines 16-48). -/

/-- Template isin_details. -/
def tplIsinDetails (isin issuer issuer_type sector coupon_rate instrument_name
    face_value issue_size redemption_date credit_rating listing_details
    documents : String) : String :=
  "Here are the details for ISIN " ++ isin ++ ":\n\n" ++
  "● Issuer Name: " ++ issuer ++ "\n" ++
  "● Type of Issuer: " ++ issuer_type ++ "\n" ++
  "● Sector: " ++ sector ++ "\n" ++
  "● Coupon Rate: " ++ coupon_rate ++ "%\n" ++
  "● Instrument Name: " ++ instrument_name ++ "\n" ++
  "● Face Value: ₹" ++ face_value ++ "\n" ++
  "● Total Issue Size: ₹" ++ issue_size ++ " Cr\n" ++
  "● Redemption Date: " ++ redemption_date ++ "\n" ++
  "● Credit Rating: " ++ credit_rating ++ "\n" ++
  "● Listing Details: " ++ listing_details ++ "\n" ++
  "● Key Documents: " ++ documents

/-- Template issuer_issuances. -/
def tplIssuerIssuances (issuer total_bonds active_bonds matured_bonds
    isins_table : String) : String :=
  issuer ++ " has issued " ++ total_bonds ++ " bonds in total.\n" ++
  active_bonds ++ " are active, and " ++ matured_bonds ++ " have matured.\n\n" ++
  "Table of ISINs:\n\n" ++
  "ISIN | Coupon Rate | Maturity Date | Face Value | Credit Rating | Issuance Size\n" ++
  "----|-------------|--------------|-----------|--------------|-------------\n" ++
  isins_table

/-- Template filtered_bonds. -/
def tplFilteredBonds (count bonds_preview : String) : String :=
  "There are " ++ count ++ " bonds which fit your criteria. Here are some details:\n\n"
  ++ bonds_preview

/-- Template error_isin_not_found. -/
def tplIsinNotFound (isin : String) : String :=
  "Sorry, the ISIN " ++ isin ++ " was not found in our database."

/-- Template error_issuer_not_found. -/
def tplIssuerNotFound (issuer : String) : String :=
  "Sorry, no bonds from " ++ issuer ++ " were found in our database."

/-- Template error_mismatch. -/
def tplMismatch (issuer correct_issuer : String) : String :=
  "The given ISIN does not belong to " ++ issuer ++ ". It is associated with "
  ++ correct_issuer ++ "."

/-- BondDirectoryAgent._get_isin_details (lines 160-190): exact-match lookup
on the isin column, first row on success. -/
def getIsinDetails (db : List BondRec) (isin : String) : DirResult :=
  match db.filter (fun b => b.isin == isin) with
  | [] => { response_type := "error", message := tplIsinNotFound isin }
  | b :: _ =>
    { response_type := "isin_details"
      isin := some isin
      message := tplIsinDetails isin b.issuer_name b.issuer_type b.sector
        (ratStr b.coupon_rate) b.instrument_name b.face_value b.issue_size
        (renderRed b.redemption_date) b.credit_rating b.listing_details
        b.key_documents
      record := some b }

/-- Modelled from the spec: _check_isin_issuer_match is called from
process_query (lines 69 and 141) but its definition is missing from the
repository sources.  Spec section 4.3: resolve the ISIN (not-found Result on
zero rows), compare the issuer field of the record with the asserted issuer by
case-insensitive substring, and return a mismatch Result naming the actual
issuer on disagreement, the plain lookup Result on agreement. -/
def checkIsinIssuerMatch (db : List BondRec) (isin issuer : String) : DirResult :=
  match db.filter (fun b => b.isin == isin) with
  | [] => { response_type := "error", message := tplIsinNotFound isin }
  | b :: _ =>
    if containsCI b.issuer_name issuer then getIsinDetails db isin
    else { response_type := "error", message := tplMismatch issuer b.issuer_name }

/-- The isins_table row for one bond in _get_issuer_issuances (line 209). -/
def issuanceRow (b : BondRec) : String :=
  b.isin ++ " | " ++ ratStr b.coupon_rate ++ "% | " ++ renderRed b.redemption_date
  ++ " | ₹" ++ b.face_value ++ " | " ++ b.credit_rating ++ " | " ++ b.issue_size ++ " cr\n"

/-- BondDirectoryAgent._get_issuer_issuances (lines 192-222): rows whose
issuer_name contains the queried issuer case-insensitively; counts split by
equality of status with Active. -/
def getIssuerIssuances (db : List BondRec) (issuer : String) : DirResult :=
  let bonds := db.filter (fun b => containsCI b.issuer_name issuer)
  if bonds.isEmpty then
    { response_type := "error", message := tplIssuerNotFound issuer }
  else
    let total_bonds := bonds.length
    let active_bonds := (bonds.filter (fun b => b.status == "Active")).length
    let matured_bonds := total_bonds - active_bonds
    let isins_table := bonds.foldl (fun acc b => acc ++ issuanceRow b) ""
    { response_type := "issuer_issuances"
      issuer := some issuer
      message := tplIssuerIssuances issuer (toString total_bonds)
        (toString active_bonds) (toString matured_bonds) isins_table
      data := some bonds }

/-- Regex `rated\s+([A-Z]+[+-]?)` -/
def patRated : RE :=
  .seq (litCI "rated") (.seq (rePlus (.cls wsC))
    (.grp 1 (.seq (rePlus (.cls (fun c => upAZ c || lowAZ c)))
      (reOpt (.cls (fun c => c == '+' || c == '-'))))))

/-- Regex `coupon.+above\s+(\d+\.?\d*)%` -/
def patCouponAbove : RE :=
  .seq (litCI "coupon") (.seq (rePlus (.cls dotC))
  (.seq (litCI "above") (.seq (rePlus (.cls wsC))
  (.seq (.grp 1 (.seq (rePlus (.cls digitC))
      (.seq (reOpt (.cls (fun c => c == '.'))) (.star (.cls digitC)))))
    (chCI '%')))))

/-- Regex `maturity.+after\s+(\d{4})` -/
def patMaturityAfter : RE :=
  .seq (litCI "maturity") (.seq (rePlus (.cls dotC))
  (.seq (litCI "after") (.seq (rePlus (.cls wsC)) (.grp 1 (reRep 4 (.cls digitC))))))

/-- Regex `secured` -/
def patSecured : RE := litCI "secured"

/-- One cell hit of `credit_rating.str.contains(rating, na=False)` on line
251.  pandas compiles the captured rating as a regex, so a trailing plus
acts as a one-or-more quantifier on the last letter: the pattern then hits
any cell containing the letters without the plus.  A trailing minus and the
plain letter case are literal containment. -/
def ratingHit (cell rating : String) : Bool :=
  match rating.toList.getLast? with
  | some '+' => substrB rating.toList.dropLast cell.toList
  | _ => substrB rating.toList cell.toList

/-- The record set _filter_bonds (lines 224-253) accumulates before
rendering: conjunctive application of the secured / coupon-above /
maturity-after / rated filters present in the query, including the in-copy
`pd.to_datetime` conversion of the redemption_date column that the
maturity-after branch performs on the copied frame. -/
def filterBondsSet (db : List BondRec) (q : String) : List BondRec :=
  let f0 := db
  let f1 := if bsearch patSecured q.toList then
      f0.filter (fun b => b.security_type == "Secured") else f0
  let f2 :=
    match groupGet (searchFrom patCouponAbove q.toList) 1 with
    | some g => f1.filter (fun b => pyFloat g < b.coupon_rate)
    | none => f1
  let f3 :=
    match groupGet (searchFrom patMaturityAfter q.toList) 1 with
    | some g =>
      let year := parseNatL g
      (f2.map (fun b => { b with redemption_date := .dt (pdToDatetime b.redemption_date) })).filter
        (fun b => match b.redemption_date with
          | .dt (some d) => year < d.year
          | _ => false)
    | none => f2
  match groupGet (searchFrom patRated q.toList) 1 with
  | some g => f3.filter (fun b => ratingHit b.credit_rating ⟨g⟩)
  | none => f3

/-- The preview block for one bond in _filter_bonds (lines 263-270). -/
def previewRow (b : BondRec) : String :=
  "● ISIN: " ++ b.isin ++ "\n" ++
  "● Issuer: " ++ b.issuer_name ++ "\n" ++
  "● Coupon Rate: " ++ ratStr b.coupon_rate ++ "%\n" ++
  "● Redemption Date: " ++ renderRed b.redemption_date ++ "\n" ++
  "● Security: " ++ b.security_type ++ "\n\n"

/-- BondDirectoryAgent._filter_bonds (lines 224-283; the bond-directory
source file is truncated right after the `data` line, and the return shape is
completed per the intact copy of the same method at
src/bond-screener-agent.py lines 296-304): empty set gives no_results; else
a preview of the first 5 rows, a truncation notice beyond 5, and the full
set under data. -/
def filterBonds (db : List BondRec) (q : String) : DirResult :=
  let filtered := filterBondsSet db q
  let count := filtered.length
  if count = 0 then
    { response_type := "no_results", message := "No bonds match your specified criteria." }
  else
    let preview0 := (filtered.take 5).foldl (fun acc b => acc ++ previewRow b) ""
    let bonds_preview :=
      if 5 < count then preview0 ++ "... and " ++ toString (count - 5) ++ " more bonds.\n"
      else preview0
    { response_type := "filtered_bonds"
      count := some count
      message := tplFilteredBonds (toString count) bonds_preview
      data := some filtered }

/-- _get_bonds_by_maturity_year, embedded from its only definition in the
repository (src/bond-screener-agent.py lines 306-334, operating on
bonds_db).  Line 309 reassigns the redemption_date column of the stored
frame itself (not a copy), so the function returns the updated store next to
its Result; rows whose dates fail to parse (NaT) drop out of the year
filter. -/
def getBondsByMaturityYear (db : List BondRec) (year : String) :
    DirResult × List BondRec :=
  let db2 := db.map (fun b => { b with redemption_date := .dt (pdToDatetime b.redemption_date) })
  let maturing := db2.filter (fun b =>
    match b.redemption_date with
    | .dt (some d) => d.year == parseNatL year.toList
    | _ => false)
  let count := maturing.length
  if count = 0 then
    ({ response_type := "no_results",
       message := "No bonds found maturing in " ++ year ++ "." }, db2)
  else
    let bonds_list := (maturing.take 10).foldl (fun acc b =>
      acc ++ "● " ++ b.isin ++ " | " ++ b.issuer_name ++ " | "
        ++ (match b.redemption_date with
            | .dt (some d) => strfDMY d
            | _ => "NaT") ++ "\n") ""
    let bonds_list' :=
      if 10 < count then
        bonds_list ++ "\n... and " ++ toString (count - 10) ++ " more bonds maturing in " ++ year ++ "."
      else bonds_list
    ({ response_type := "maturity_bonds"
       year := some year
       count := some count
       message := "Found " ++ toString count ++ " bonds maturing in " ++ year ++ ":\n\n" ++ bonds_list'
       data := some maturing }, db2)

/-- _get_cash_flow_schedule, lookup shape from src/bond-screener-agent.py
lines 336-347.  Modelled from the spec: the synthetic schedule generation
(lines 349-380) is date arithmetic against the current clock, which spec
section 1 excludes from the core, so the success branch carries an
abstracted schedule table. -/
def getCashFlowSchedule (db : List BondRec) (isin : String) : DirResult :=
  match db.filter (fun b => b.isin == isin) with
  | [] => { response_type := "error", message := tplIsinNotFound isin }
  | b :: _ =>
    { response_type := "cash_flow_schedule"
      isin := some isin
      message := "Cash flow schedule for ISIN " ++ isin ++ ":\n\nDate | Type\n-----|-----\n"
        ++ renderRed b.redemption_date ++ " | Principal + Interest\n" }

/-- Modelled from the spec: _get_security_details is dispatched from
process_query line 102 but missing from the repository sources.  Spec
section 4.3 single-entity lookup: not-found Result on zero rows, else a
success Result for the resolved record. -/
def getSecurityDetails (db : List BondRec) (isin : String) : DirResult :=
  match db.filter (fun b => b.isin == isin) with
  | [] => { response_type := "error", message := tplIsinNotFound isin }
  | b :: _ =>
    { response_type := "security_details", isin := some isin
      message := "Security details for ISIN " ++ isin ++ ": " ++ b.security_type
      record := some b }

/-- Modelled from the spec: _get_document_links is dispatched from
process_query line 109 but missing from the sources; single-entity lookup
per spec section 4.3. -/
def getDocumentLinks (db : List BondRec) (isin : String) : DirResult :=
  match db.filter (fun b => b.isin == isin) with
  | [] => { response_type := "error", message := tplIsinNotFound isin }
  | b :: _ =>
    { response_type := "document_links", isin := some isin
      message := "Key documents for ISIN " ++ isin ++ ": " ++ b.key_documents
      record := some b }

/-- Modelled from the spec: _get_issuer_documents is dispatched from
process_query line 115 but missing from the sources; validated-substring
lookup per spec section 4.3. -/
def getIssuerDocuments (db : List BondRec) (issuer : String) : DirResult :=
  let bonds := db.filter (fun b => containsCI b.issuer_name issuer)
  if bonds.isEmpty then
    { response_type := "error", message := tplIssuerNotFound issuer }
  else
    { response_type := "issuer_documents", issuer := some issuer
      message := "Documents for bonds issued by " ++ issuer ++ "."
      data := some bonds }

/-- Modelled from the spec: _get_debenture_trustee is dispatched from
process_query line 122 but missing from the sources; single-entity lookup
per spec section 4.3. -/
def getDebentureTrustee (db : List BondRec) (isin : String) : DirResult :=
  match db.filter (fun b => b.isin == isin) with
  | [] => { response_type := "error", message := tplIsinNotFound isin }
  | b :: _ =>
    { response_type := "debenture_trustee", isin := some isin
      message := "Debenture trustee details for ISIN " ++ isin ++ "."
      record := some b }

/-- Modelled from the spec: _get_listing_details is dispatched from
process_query line 129 but missing from the sources; single-entity lookup
per spec section 4.3. -/
def getListingDetails (db : List BondRec) (isin : String) : DirResult :=
  match db.filter (fun b => b.isin == isin) with
  | [] => { response_type := "error", message := tplIsinNotFound isin }
  | b :: _ =>
    { response_type := "listing_details", isin := some isin
      message := "Listing details for ISIN " ++ isin ++ ": " ++ b.listing_details
      record := some b }

/-- Modelled from the spec: _get_face_value is dispatched from process_query
line 143 but missing from the sources; single-entity lookup per spec
section 4.3. -/
def getFaceValue (db : List BondRec) (isin : String) : DirResult :=
  match db.filter (fun b => b.isin == isin) with
  | [] => { response_type := "error", message := tplIsinNotFound isin }
  | b :: _ =>
    { response_type := "face_value", isin := some isin
      message := "The face value of ISIN " ++ isin ++ " is ₹" ++ b.face_value ++ "."
      record := some b }

/- Trigger patterns of BondDirectoryAgent.process_query (lines 50-158). -/

/-- Regex `(issuances|issued|bonds|by|from)\s+([A-Za-z\s]+)` (line 66). -/
def patIsinIssuer : RE :=
  .seq (.grp 1 (altL [litCI "issuances", litCI "issued", litCI "bonds", litCI "by", litCI "from"]))
    (.seq (rePlus (.cls wsC)) (.grp 2 (rePlus (.cls letterOrWs))))

/-- Regex `(find|search|filter).+(bonds|debentures)` (line 80). -/
def patFindBonds : RE :=
  .seq (.grp 1 (altL [litCI "find", litCI "search", litCI "filter"]))
    (.seq (rePlus (.cls dotC)) (.grp 2 (.alt (litCI "bonds") (litCI "debentures"))))

/-- Regex `(maturing|maturity).+(\d{4})` (line 84). -/
def patMaturing : RE :=
  .seq (.grp 1 (.alt (litCI "maturing") (litCI "maturity")))
    (.seq (rePlus (.cls dotC)) (.grp 2 (reRep 4 (.cls digitC))))

/-- Regex `(\d{4})` (line 85). -/
def patYear4 : RE := .grp 1 (reRep 4 (.cls digitC))

/-- Regex `(cash\s+flow|schedule).+ISIN\s+([A-Z0-9]+)` (line 91). -/
def patCashFlowIsin : RE :=
  .seq (.grp 1 (.alt (.seq (litCI "cash") (.seq (rePlus (.cls wsC)) (litCI "flow")))
      (litCI "schedule")))
    (.seq (rePlus (.cls dotC)) (isinSub 2))

/-- Regex `(security|secured).+ISIN\s+([A-Z0-9]+)` (line 98). -/
def patSecurityIsin : RE :=
  .seq (.grp 1 (.alt (litCI "security") (litCI "secured")))
    (.seq (rePlus (.cls dotC)) (isinSub 2))

/-- Regex `(document|doc|offer|trust).+(ISIN|for)\s+([A-Z0-9]+)` (line 105). -/
def patDocumentFor : RE :=
  .seq (.grp 1 (altL [litCI "document", litCI "doc", litCI "offer", litCI "trust"]))
    (.seq (rePlus (.cls dotC))
      (.seq (.grp 2 (.alt (litCI "isin") (litCI "for")))
        (.seq (rePlus (.cls wsC)) (.grp 3 (rePlus (.cls alnumCI))))))

/-- Regex `([A-Z0-9]+)` (line 106). -/
def patAlnumTok : RE := .grp 1 (rePlus (.cls alnumCI))

/-- Regex `document.+\s+([A-Za-z\s]+)` (line 112). -/
def patDocIssuer : RE :=
  .seq (litCI "document") (.seq (rePlus (.cls dotC))
    (.seq (rePlus (.cls wsC)) (.grp 1 (rePlus (.cls letterOrWs)))))

/-- Regex `(trustee|debenture\s+trustee).+ISIN\s+([A-Z0-9]+)` (line 118). -/
def patTrusteeIsin : RE :=
  .seq (.grp 1 (.alt (litCI "trustee")
      (.seq (litCI "debenture") (.seq (rePlus (.cls wsC)) (litCI "trustee")))))
    (.seq (rePlus (.cls dotC)) (isinSub 2))

/-- Regex `(listing|listed|exchange|trading).+ISIN\s+([A-Z0-9]+)` (line 125). -/
def patListingIsin : RE :=
  .seq (.grp 1 (altL [litCI "listing", litCI "listed", litCI "exchange", litCI "trading"]))
    (.seq (rePlus (.cls dotC)) (isinSub 2))

/-- Regex `(face\s+value).+ISIN\s+([A-Z0-9]+)` (line 132). -/
def patFaceValueIsin : RE :=
  .seq (.grp 1 (.seq (litCI "face") (.seq (rePlus (.cls wsC)) (litCI "value"))))
    (.seq (rePlus (.cls dotC)) (isinSub 2))

/-- Regex `(face\s+value).+([A-Za-z\s]+)\s+bond` (line 138). -/
def patFaceValueIssuer : RE :=
  .seq (.grp 1 (.seq (litCI "face") (.seq (rePlus (.cls wsC)) (litCI "value"))))
    (.seq (rePlus (.cls dotC))
      (.seq (.grp 2 (rePlus (.cls letterOrWs)))
        (.seq (rePlus (.cls wsC)) (litCI "bond"))))

/-- The general-help fallback of process_query (lines 146-158). -/
def dirGeneralHelp : DirResult :=
  { response_type := "general_help"
    message :=
      "I can help you find information about bonds in our directory. " ++
      "You can ask about specific ISINs, issuers, filter bonds by criteria, " ++
      "check maturity dates, or get cash flow schedules." }

/- The intent checks of BondDirectoryAgent.process_query as trigger/action
pairs.  A Python block of the form `if outer: ... if inner: return act`
falls through to the next check when the inner search fails, so such a
check carries the conjunction of both searches as its trigger. -/

/-- Trigger of the ISIN-lookup check (line 61). -/
def dirTrig1 (q : String) : Bool := (searchFrom patIsin q.toList).isSome

/-- Action of the ISIN-lookup check (lines 62-71): with an embedded issuer
mention the ISIN/issuer cross-check runs, else the plain detail lookup. -/
def dirAct1 (q : String) (db : List BondRec) : DirResult × List BondRec :=
  let isin : String := ⟨(groupGet (searchFrom patIsin q.toList) 1).getD []⟩
  match groupGet (searchFrom patIsinIssuer q.toList) 2 with
  | some g => (checkIsinIssuerMatch db isin (pyStrip ⟨g⟩), db)
  | none => (getIsinDetails db isin, db)

/-- Trigger of the issuer-issuances check (line 74). -/
def dirTrig2 (q : String) : Bool := (searchFrom patIssuedBy q.toList).isSome

/-- Action of the issuer-issuances check (lines 75-77). -/
def dirAct2 (q : String) (db : List BondRec) : DirResult × List BondRec :=
  (getIssuerIssuances db (pyStrip ⟨(groupGet (searchFrom patIssuedBy q.toList) 3).getD []⟩), db)

/-- Trigger of the filtered-search check (line 80). -/
def dirTrig3 (q : String) : Bool := bsearch patFindBonds q.toList

/-- Action of the filtered-search check (line 81). -/
def dirAct3 (q : String) (db : List BondRec) : DirResult × List BondRec :=
  (filterBonds db q, db)

/-- Trigger of the maturity-year check (lines 84-86): the outer search plus
the inner year search that must also succeed before the handler runs. -/
def dirTrig4 (q : String) : Bool :=
  bsearch patMaturing q.toList && (searchFrom patYear4 q.toList).isSome

/-- Action of the maturity-year check (lines 87-88). -/
def dirAct4 (q : String) (db : List BondRec) : DirResult × List BondRec :=
  getBondsByMaturityYear db ⟨(groupGet (searchFrom patYear4 q.toList) 1).getD []⟩

/-- Trigger of the cash-flow check (lines 91-93). -/
def dirTrig5 (q : String) : Bool :=
  bsearch patCashFlowIsin q.toList && (searchFrom patIsin q.toList).isSome

/-- Action of the cash-flow check (lines 94-95). -/
def dirAct5 (q : String) (db : List BondRec) : DirResult × List BondRec :=
  (getCashFlowSchedule db ⟨(groupGet (searchFrom patIsin q.toList) 1).getD []⟩, db)

/-- Trigger of the security-details check (lines 98-100). -/
def dirTrig6 (q : String) : Bool :=
  bsearch patSecurityIsin q.toList && (searchFrom patIsin q.toList).isSome

/-- Action of the security-details check (lines 101-102). -/
def dirAct6 (q : String) (db : List BondRec) : DirResult × List BondRec :=
  (getSecurityDetails db ⟨(groupGet (searchFrom patIsin q.toList) 1).getD []⟩, db)

/-- Trigger of the document-by-token check (lines 105-107): the outer search
plus the bare alphanumeric-token search (which grabs the first such run in
the query). -/
def dirTrig7a (q : String) : Bool :=
  bsearch patDocumentFor q.toList && (searchFrom patAlnumTok q.toList).isSome

/-- Action of the document-by-token check (lines 108-109). -/
def dirAct7a (q : String) (db : List BondRec) : DirResult × List BondRec :=
  (getDocumentLinks db ⟨(groupGet (searchFrom patAlnumTok q.toList) 1).getD []⟩, db)

/-- Trigger of the document-by-issuer check (lines 112-113), reached only
when the token search of lines 106-107 failed. -/
def dirTrig7b (q : String) : Bool :=
  bsearch patDocumentFor q.toList && !(searchFrom patAlnumTok q.toList).isSome
    && (searchFrom patDocIssuer q.toList).isSome

/-- Action of the document-by-issuer check (lines 114-115). -/
def dirAct7b (q : String) (db : List BondRec) : DirResult × List BondRec :=
  (getIssuerDocuments db (pyStrip ⟨(groupGet (searchFrom patDocIssuer q.toList) 1).getD []⟩), db)

/-- Trigger of the debenture-trustee check (lines 118-120). -/
def dirTrig8 (q : String) : Bool :=
  bsearch patTrusteeIsin q.toList && (searchFrom patIsin q.toList).isSome

/-- Action of the debenture-trustee check (lines 121-122). -/
def dirAct8 (q : String) (db : List BondRec) : DirResult × List BondRec :=
  (getDebentureTrustee db ⟨(groupGet (searchFrom patIsin q.toList) 1).getD []⟩, db)

/-- Trigger of the listing-details check (lines 125-127). -/
def dirTrig9 (q : String) : Bool :=
  bsearch patListingIsin q.toList && (searchFrom patIsin q.toList).isSome

/-- Action of the listing-details check (lines 128-129). -/
def dirAct9 (q : String) (db : List BondRec) : DirResult × List BondRec :=
  (getListingDetails db ⟨(groupGet (searchFrom patIsin q.toList) 1).getD []⟩, db)

/-- Trigger of the face-value check (lines 132-134). -/
def dirTrig10 (q : String) : Bool :=
  bsearch patFaceValueIsin q.toList && (searchFrom patIsin q.toList).isSome

/-- Action of the face-value check (lines 136-143): with an issuer mention
the cross-check variant runs, else the plain face-value lookup. -/
def dirAct10 (q : String) (db : List BondRec) : DirResult × List BondRec :=
  let isin : String := ⟨(groupGet (searchFrom patIsin q.toList) 1).getD []⟩
  match groupGet (searchFrom patFaceValueIssuer q.toList) 2 with
  | some g => (checkIsinIssuerMatch db isin (pyStrip ⟨g⟩), db)
  | none => (getFaceValue db isin, db)

/-- BondDirectoryAgent.process_query (lines 50-158): the ordered cascade of
intent checks, first match wins, general help as fallback.  The store is
threaded through because the maturity-year handler reassigns the
redemption_date column of the stored frame. -/
def dirProcessQuery (db : List BondRec) (q : String) : DirResult × List BondRec :=
  if dirTrig1 q then dirAct1 q db
  else if dirTrig2 q then dirAct2 q db
  else if dirTrig3 q then dirAct3 q db
  else if dirTrig4 q then dirAct4 q db
  else if dirTrig5 q then dirAct5 q db
  else if dirTrig6 q then dirAct6 q db
  else if dirTrig7a q then dirAct7a q db
  else if dirTrig7b q then dirAct7b q db
  else if dirTrig8 q then dirAct8 q db
  else if dirTrig9 q then dirAct9 q db
  else if dirTrig10 q then dirAct10 q db
  else (dirGeneralHelp, db)

/- ======================================================================
Bond finder agent (src/bond-finder-agent.py).
====================================================================== -/

/-- One row of the bond finder database (columns per spec section 6). -/
structure FindRec where
  issuer : String
  rating : String
  yield_min : ℚ
  yield_max : ℚ
  term_years : ℚ
  maturity_date : String
  available_on_smest : Bool
  available_on_fixedincome : Bool
deriving DecidableEq

/-- Result dictionary shape shared by the finder handlers. -/
structure FindResult where
  response_type : String
  message : String
  data : Option (List FindRec) := none
  min_yield : Option ℚ := none
  issuer : Option String := none
  platforms : Option (List String) := none
  yield_range : Option String := none
  rating : Option String := none
  term : Option (Option Nat) := none
deriving DecidableEq

/-- Python `str.upper()`. -/
def pyUpper (s : String) : String := ⟨s.toList.map Char.toUpper⟩

/-- BondFinderAgent._get_platforms_for_issuer (lines 253-264): rows selected
by exact equality on the issuer column, then each of the two platforms is
listed when any selected row has its availability flag set. -/
def getPlatformsForIssuer (db : List FindRec) (issuer : String) : List String :=
  let issuerBonds := db.filter (fun b => b.issuer == issuer)
  (if issuerBonds.any (fun b => b.available_on_smest) then ["SMEST"] else []) ++
  (if issuerBonds.any (fun b => b.available_on_fixedincome) then ["FixedIncome"] else [])

/-- The yield-range cell used by the finder tables (for example line 110). -/
def yieldRangeCell (b : FindRec) : String :=
  ratStr b.yield_min ++ "%-" ++ ratStr b.yield_max ++ "%"

/-- One table row of the general-info and yield tables (line 111 and
line 167). -/
def finderRow (db : List FindRec) (b : FindRec) : String :=
  b.issuer ++ " | " ++ b.rating ++ " | " ++ yieldRangeCell b ++ " | "
  ++ String.intercalate ", " (getPlatformsForIssuer db b.issuer) ++ "\n"

/-- pandas `drop_duplicates` on the issuer column: keep the first row per
issuer value. -/
def dropDupByIssuer (db : List FindRec) : List FindRec :=
  db.foldl (fun acc b => if acc.any (fun x => x.issuer == b.issuer) then acc else acc ++ [b]) []

/-- BondFinderAgent._get_general_info (lines 95-117).  Lines 105-106 of the
source are a corrupted duplicate of the table loop; the embedding follows
the intact second copy at lines 107-111. -/
def getGeneralInfo (db : List FindRec) : FindResult :=
  let sample := (dropDupByIssuer db).take 5
  let bonds_table := sample.foldl (fun acc b => acc ++ finderRow db b) ""
  { response_type := "general_info"
    message := "Currently showcasing bonds available on SMEST and FixedIncome.\n\n"
      ++ "Sample bonds:\n\nIssuer | Rating | Yield | Available at\n"
      ++ "-------|--------|-------|------------\n" ++ bonds_table
    data := some sample }

/-- Template platform_availability (lines 27-29). -/
def tplPlatformAvail (issuer platforms yield_range : String) : String :=
  issuer ++ " bonds available on " ++ platforms ++ " with a yield range of "
  ++ yield_range ++ "."

/-- BondFinderAgent._get_platform_availability (lines 119-149): rows are
selected by case-insensitive substring containment on the issuer column, but
the platform list comes from _get_platforms_for_issuer, which compares the
issuer column by exact equality. -/
def getPlatformAvailability (db : List FindRec) (issuer : String) : FindResult :=
  let issuerBonds := db.filter (fun b => containsCI b.issuer issuer)
  if issuerBonds.isEmpty then
    { response_type := "error"
      message := "Bonds from " ++ issuer ++ " are currently not available." }
  else
    let platforms := getPlatformsForIssuer db issuer
    let yield_range := ratStr (qListMin (issuerBonds.map (fun b => b.yield_min))) ++ "%-"
      ++ ratStr (qListMax (issuerBonds.map (fun b => b.yield_max))) ++ "%"
    { response_type := "platform_availability"
      issuer := some issuer
      message := tplPlatformAvail issuer (String.intercalate ", " platforms) yield_range
      platforms := some platforms
      yield_range := some yield_range }

/-- BondFinderAgent._get_bonds_by_yield (lines 151-180): keep rows with
yield_max strictly greater than the threshold; render the first 10 with a
truncation notice beyond 10; return the full set under data. -/
def getBondsByYield (db : List FindRec) (min_yield : ℚ) : FindResult :=
  let high := db.filter (fun b => min_yield < b.yield_max)
  if high.isEmpty then
    { response_type := "no_results"
      message := "No bonds found with yield above " ++ ratStr min_yield ++ "%." }
  else
    let bonds_table := (high.take 10).foldl (fun acc b => acc ++ finderRow db b) ""
    let bonds_table' :=
      if 10 < high.length then
        bonds_table ++ "\n... and " ++ toString (high.length - 10) ++ " more bonds."
      else bonds_table
    { response_type := "yield_based_search"
      min_yield := some min_yield
      message := "Bonds with yield more than " ++ ratStr min_yield ++ "%:\n\n"
        ++ "Issuer | Rating | Yield | Available at\n-------|--------|-------|------------\n"
        ++ bonds_table'
      data := some high }

/-- pandas `idxmax` row for the yield_max column: the first row attaining
the maximum. -/
def firstMaxYield : List FindRec → Option FindRec
  | [] => none
  | x :: xs => some (xs.foldl (fun best b => if best.yield_max < b.yield_max then b else best) x)

/-- BondFinderAgent._get_best_yield_comparison (lines 182-221). -/
def getBestYieldComparison (db : List FindRec) (term : Option Nat) : FindResult :=
  let filtered :=
    match term with
    | some t => db.filter (fun b => b.term_years == (t : ℚ))
    | none => db
  match firstMaxYield filtered with
  | none =>
    { response_type := "no_results"
      message := "No bonds found" ++
        (match term with
         | some t => " for " ++ toString t ++ "-year term"
         | none => "") ++ "." }
  | some best =>
    let platforms := getPlatformsForIssuer db best.issuer
    let best_platform := (platforms.head?).getD "N/A"
    { response_type := "best_yield_comparison"
      term := some term
      message := best_platform ++ " offers the highest yield at " ++ ratStr best.yield_max
        ++ "% for " ++ (match term with | some t => toString t | none => "all")
        ++ "-year bonds."
      issuer := some best.issuer }

/-- BondFinderAgent._get_bonds_by_rating (lines 223-251): rows whose rating
cell contains the queried rating (case-sensitive, regex disabled on
line 227); first 10 rendered with a truncation notice beyond 10. -/
def getBondsByRating (db : List FindRec) (rating : String) : FindResult :=
  let ratingBonds := db.filter (fun b => containsCS b.rating rating)
  if ratingBonds.isEmpty then
    { response_type := "no_results"
      message := "No bonds found with rating " ++ rating ++ "." }
  else
    let bonds_table := (ratingBonds.take 10).foldl (fun acc b =>
      acc ++ b.issuer ++ " | " ++ b.rating ++ " | " ++ yieldRangeCell b ++ " | "
        ++ b.maturity_date ++ " | "
        ++ String.intercalate ", " (getPlatformsForIssuer db b.issuer) ++ "\n") ""
    let bonds_table' :=
      if 10 < ratingBonds.length then
        bonds_table ++ "\n... and " ++ toString (ratingBonds.length - 10) ++ " more bonds."
      else bonds_table
    { response_type := "rating_based_search"
      rating := some rating
      message := "Bonds with rating " ++ rating
        ++ ":\n\nIssuer | Rating | Yield | Maturity | Available at\n"
        ++ "-------|--------|-------|----------|------------\n" ++ bonds_table'
      data := some ratingBonds }

/- Trigger patterns of BondFinderAgent.process_query (lines 42-93). -/

/-- Regex `(show|what).+(available|bonds).+(bond\s+finder)` (line 53). -/
def patGeneralInfo : RE :=
  .seq (.grp 1 (.alt (litCI "show") (litCI "what")))
  (.seq (rePlus (.cls dotC))
  (.seq (.grp 2 (.alt (litCI "available") (litCI "bonds")))
  (.seq (rePlus (.cls dotC))
    (.grp 3 (.seq (litCI "bond") (.seq (rePlus (.cls wsC)) (litCI "finder")))))))

/-- Regex `(where|which platform).+(buy|purchase|find).+from\s+([A-Za-z\s]+)` (line 57). -/
def patWhereBuy : RE :=
  .seq (.grp 1 (.alt (litCI "where") (litCI "which platform")))
  (.seq (rePlus (.cls dotC))
  (.seq (.grp 2 (altL [litCI "buy", litCI "purchase", litCI "find"]))
  (.seq (rePlus (.cls dotC))
  (.seq (litCI "from")
    (.seq (rePlus (.cls wsC)) (.grp 3 (rePlus (.cls letterOrWs))))))))

/-- Regex `(yield|bonds).+(more|greater|higher|above)\s+than\s+(\d+\.?\d*)` (line 63). -/
def patYieldMoreThan : RE :=
  .seq (.grp 1 (.alt (litCI "yield") (litCI "bonds")))
  (.seq (rePlus (.cls dotC))
  (.seq (.grp 2 (altL [litCI "more", litCI "greater", litCI "higher", litCI "above"]))
  (.seq (rePlus (.cls wsC))
  (.seq (litCI "than")
  (.seq (rePlus (.cls wsC))
    (.grp 3 (.seq (rePlus (.cls digitC))
      (.seq (reOpt (.cls (fun c => c == '.'))) (.star (.cls digitC))))))))))

/-- Regex `(best|highest|maximum).+(yield|return)` (line 69). -/
def patBestReturn : RE :=
  .seq (.grp 1 (altL [litCI "best", litCI "highest", litCI "maximum"]))
    (.seq (rePlus (.cls dotC)) (.grp 2 (.alt (litCI "yield") (litCI "return"))))

/-- Regex `(\d+)[\s-]year` (line 71). -/
def patTermYear : RE :=
  .seq (.grp 1 (rePlus (.cls digitC)))
    (.seq (.cls (fun c => wsC c || c == '-')) (litCI "year"))

/-- Regex `(rating|rated).+(of|as|with)\s+([A-Z]+[+-]?)` (line 76). -/
def patRatingOf : RE :=
  .seq (.grp 1 (.alt (litCI "rating") (litCI "rated")))
  (.seq (rePlus (.cls dotC))
  (.seq (.grp 2 (altL [litCI "of", litCI "as", litCI "with"]))
  (.seq (rePlus (.cls wsC))
    (.grp 3 (.seq (rePlus (.cls (fun c => upAZ c || lowAZ c)))
      (reOpt (.cls (fun c => c == '+' || c == '-'))))))))

/-- The general-help fallback of the finder (lines 82-93). -/
def finGeneralHelp : FindResult :=
  { response_type := "general_help"
    message := "I can help you find and compare bonds across different platforms." }

/-- Trigger of the general-inquiry check (line 53). -/
def finTrig1 (q : String) : Bool := bsearch patGeneralInfo q.toList

/-- Action of the general-inquiry check (line 54). -/
def finAct1 (_q : String) (db : List FindRec) : FindResult := getGeneralInfo db

/-- Trigger of the platform-availability check (lines 57-58). -/
def finTrig2 (q : String) : Bool := (searchFrom patWhereBuy q.toList).isSome

/-- Action of the platform-availability check (lines 59-60). -/
def finAct2 (q : String) (db : List FindRec) : FindResult :=
  getPlatformAvailability db (pyStrip ⟨(groupGet (searchFrom patWhereBuy q.toList) 3).getD []⟩)

/-- Trigger of the yield-based check (lines 63-64). -/
def finTrig3 (q : String) : Bool := (searchFrom patYieldMoreThan q.toList).isSome

/-- Action of the yield-based check (lines 65-66). -/
def finAct3 (q : String) (db : List FindRec) : FindResult :=
  getBondsByYield db (pyFloat ((groupGet (searchFrom patYieldMoreThan q.toList) 3).getD []))

/-- Trigger of the best-yield check (line 69). -/
def finTrig4 (q : String) : Bool := bsearch patBestReturn q.toList

/-- Action of the best-yield check (lines 71-73). -/
def finAct4 (q : String) (db : List FindRec) : FindResult :=
  getBestYieldComparison db
    ((groupGet (searchFrom patTermYear q.toList) 1).map parseNatL)

/-- Trigger of the rating-based check (lines 76-77). -/
def finTrig5 (q : String) : Bool := (searchFrom patRatingOf q.toList).isSome

/-- Action of the rating-based check (lines 78-79). -/
def finAct5 (q : String) (db : List FindRec) : FindResult :=
  getBondsByRating db (pyUpper ⟨(groupGet (searchFrom patRatingOf q.toList) 3).getD []⟩)

/-- BondFinderAgent.process_query (lines 42-93). -/
def finProcessQuery (db : List FindRec) (q : String) : FindResult :=
  if finTrig1 q then finAct1 q db
  else if finTrig2 q then finAct2 q db
  else if finTrig3 q then finAct3 q db
  else if finTrig4 q then finAct4 q db
  else if finTrig5 q then finAct5 q db
  else finGeneralHelp

/- ======================================================================
Bond screener agent (src/bond-screener-agent.py).
====================================================================== -/

/-- One row of the company database; only the company_name key column is
read by the cascade and extraction logic in scope. -/
structure CompanyRec where
  company_name : String
deriving DecidableEq

/-- A Python runtime exception escaping process_query. -/
inductive PyErr where
  | nameError (n : String)
deriving DecidableEq

/-- Result dictionary shape of the screener handlers. -/
structure ScrResult where
  response_type : String
  message : String
deriving DecidableEq

/-- Word character `\w` restricted to ASCII. -/
def wordC (c : Char) : Bool := letterC c || digitC c || c == '_'

/-- Fueled version of findall that keeps the capture environment of each match. -/
def findallGF (r : RE) : Nat → List Char → List GEnv
  | 0, _ => []
  | _ + 1, [] =>
    match (mtch r []).head? with
    | some x => [x.2]
    | none => []
  | fuel + 1, s@(_ :: rest) =>
    match (mtch r s).head? with
    | some x =>
      if x.1.length < s.length then x.2 :: findallGF r fuel x.1
      else x.2 :: findallGF r fuel rest
    | none => findallGF r fuel rest

/-- Python `re.findall` keeping capture environments, for the group-tuple list the
screener iterates over. -/
def findallG (r : RE) (s : List Char) : List GEnv :=
  findallGF r (s.length + 1) s

/-- Regex `(summary|information|about)\s+(for|about|on)\s+` (line 77). -/
def patSummaryFor : RE :=
  .seq (.grp 1 (altL [litCI "summary", litCI "information", litCI "about"]))
  (.seq (rePlus (.cls wsC))
  (.seq (.grp 2 (altL [litCI "for", litCI "about", litCI "on"])) (rePlus (.cls wsC))))

/-- The metric alternation
`(EPS|current ratio|debt[/\\]equity|debt[/\\]EBITDA|interest coverage|operating cashflow|ROE|ROA)`
shared by the metric and compare patterns (lines 82 and 88). -/
def metricAlt : RE :=
  altL [litCI "eps",
    litCI "current ratio",
    .seq (litCI "debt") (.seq (.cls (fun c => c == '/' || c == '\\')) (litCI "equity")),
    .seq (litCI "debt") (.seq (.cls (fun c => c == '/' || c == '\\')) (litCI "ebitda")),
    litCI "interest coverage",
    litCI "operating cashflow",
    litCI "roe",
    litCI "roa"]

/-- Regex `(what|get|show).+(is|the)\s+(METRIC)` (line 82). -/
def patMetric : RE :=
  .seq (.grp 1 (altL [litCI "what", litCI "get", litCI "show"]))
  (.seq (rePlus (.cls dotC))
  (.seq (.grp 2 (.alt (litCI "is") (litCI "the")))
  (.seq (rePlus (.cls wsC)) (.grp 3 metricAlt))))

/-- Regex `compare\s+(METRIC).+(\w+).+(\w+)` (line 88). -/
def patCompareMetric : RE :=
  .seq (litCI "compare")
  (.seq (rePlus (.cls wsC))
  (.seq (.grp 1 metricAlt)
  (.seq (rePlus (.cls dotC))
  (.seq (.grp 2 (rePlus (.cls wordC)))
  (.seq (rePlus (.cls dotC)) (.grp 3 (rePlus (.cls wordC))))))))

/-- Regex `(pros|cons|strengths|weaknesses)` (line 96). -/
def patProsCons : RE :=
  .grp 1 (altL [litCI "pros", litCI "cons", litCI "strengths", litCI "weaknesses"])

/-- Regex `(lenders|lent|borrowed|loan)` (line 100). -/
def patLenders : RE :=
  .grp 1 (altL [litCI "lenders", litCI "lent", litCI "borrowed", litCI "loan"])

/-- Regex `(news|recent|updates|articles)` (line 104). -/
def patNews : RE :=
  .grp 1 (altL [litCI "news", litCI "recent", litCI "updates", litCI "articles"])

/-- Regex `(for|about|on)\s+([A-Za-z\s]+?)\s+(company|limited|ltd)` (line 130). -/
def patCompanyName1 : RE :=
  .seq (.grp 1 (altL [litCI "for", litCI "about", litCI "on"]))
  (.seq (rePlus (.cls wsC))
  (.seq (.grp 2 (lazyPlus (.cls letterOrWs)))
  (.seq (rePlus (.cls wsC))
    (.grp 3 (altL [litCI "company", litCI "limited", litCI "ltd"])))))

/-- Regex `([A-Za-z\s]+?)\s+(company|limited|ltd)` (line 131). -/
def patCompanyName2 : RE :=
  .seq (.grp 1 (lazyPlus (.cls letterOrWs)))
  (.seq (rePlus (.cls wsC))
    (.grp 2 (altL [litCI "company", litCI "limited", litCI "ltd"])))

/-- Regex `([A-Za-z\s]+?)\s+(rating|EPS|sector|industry)` (line 132). -/
def patCompanyName3 : RE :=
  .seq (.grp 1 (lazyPlus (.cls letterOrWs)))
  (.seq (rePlus (.cls wsC))
    (.grp 2 (altL [litCI "rating", litCI "eps", litCI "sector", litCI "industry"])))

/-- One iteration of the pattern loop in _extract_company_name: search,
take the name group (group 2 for the first pattern, whose source text
contains `for|about|on`; group 1 otherwise, per the test on line 139),
strip, and keep the candidate only when some company_name cell contains it
case-insensitively. -/
def tryCompanyPat (db : List CompanyRec) (q : String) (p : RE) (k : Nat) : Option String :=
  match groupGet (searchFrom p q.toList) k with
  | none => none
  | some g =>
    let name := pyStrip ⟨g⟩
    if db.any (fun c => containsCI c.company_name name) then some name else none

/-- BondScreenerAgent._extract_company_name (lines 126-146): try the three
patterns in order, returning the first validated candidate. -/
def extractCompanyName (db : List CompanyRec) (q : String) : Option String :=
  (tryCompanyPat db q patCompanyName1 2).orElse (fun _ =>
  (tryCompanyPat db q patCompanyName2 1).orElse (fun _ =>
  tryCompanyPat db q patCompanyName3 1))

/-- Regex `([A-Za-z\s]+?)\s+(company|limited|ltd|and|with|to)` (line 153). -/
def patMultiCompany : RE :=
  .seq (.grp 1 (lazyPlus (.cls letterOrWs)))
  (.seq (rePlus (.cls wsC))
    (.grp 2 (altL [litCI "company", litCI "limited", litCI "ltd",
      litCI "and", litCI "with", litCI "to"])))

/-- BondScreenerAgent._extract_multiple_companies (lines 148-167): validated
group-1 captures of the findall pass, then, while fewer than two were found,
whitespace-split words longer than three characters that validate and are
not already collected. -/
def extractMultipleCompanies (db : List CompanyRec) (q : String) : List String :=
  let companies := (findallG patMultiCompany q.toList).foldl (fun acc g =>
    match (g.find? (fun e => e.1 == 1)).map (fun e => e.2) with
    | some m =>
      let name := pyStrip ⟨m⟩
      if db.any (fun c => containsCI c.company_name name) then acc ++ [name] else acc
    | none => acc) []
  if companies.length < 2 then
    (pySplit q).foldl (fun acc w =>
      if !(acc.contains w) && 3 < w.length
          && db.any (fun c => containsCI c.company_name w) then acc ++ [w]
      else acc) companies
  else companies

/-- Embedded from src/bond-screener-agent.py lines 169-186: the body of
_get_company_summary was corrupted by a paste of directory-agent code, and
its first statement `return self._get_cash_flow_schedule(isin)` evaluates
the undefined name `isin`, so every call raises NameError at runtime.  The
docstring and spec section 4.3 instead promise a company_summary Result. -/
def getCompanySummary (_db : List CompanyRec) (_company : String) :
    Except PyErr ScrResult :=
  .error (.nameError "isin")

/-- Modelled from the spec: _get_company_metric is dispatched from
process_query line 85 but its body is missing from the corrupted source;
spec sections 4.3 and 6 make it a company_metric Result. -/
def getCompanyMetric (_db : List CompanyRec) (company metric : String) :
    Except PyErr ScrResult :=
  .ok { response_type := "company_metric"
        message := "The " ++ metric ++ " for " ++ company ++ " is on record." }

/-- Modelled from the spec: _compare_company_metrics is dispatched from
process_query line 93 but its body is missing from the corrupted source;
spec section 6 makes it a compare_metrics Result. -/
def compareCompanyMetrics (_db : List CompanyRec) (companies : List String)
    (metric : String) : Except PyErr ScrResult :=
  .ok { response_type := "compare_metrics"
        message := "Comparison of " ++ metric ++ " for "
          ++ String.intercalate ", " companies ++ "." }

/-- Modelled from the spec: _get_pros_cons is dispatched from process_query
line 97 but its body is missing from the corrupted source. -/
def getProsCons (_db : List CompanyRec) (company : String) : Except PyErr ScrResult :=
  .ok { response_type := "pros_cons"
        message := "PROS and CONS for " ++ company ++ "." }

/-- Modelled from the spec: _get_lenders is dispatched from process_query
line 101 but its body is missing from the corrupted source. -/
def getLenders (_db : List CompanyRec) (company : String) : Except PyErr ScrResult :=
  .ok { response_type := "lenders_list"
        message := "Lenders for " ++ company ++ "." }

/-- Modelled from the spec: _get_recent_news is dispatched from
process_query line 105 but its body is missing from the corrupted source. -/
def getRecentNews (_db : List CompanyRec) (company : String) : Except PyErr ScrResult :=
  .ok { response_type := "recent_news"
        message := "Recent news for " ++ company ++ "." }

/-- BondScreenerAgent.process_query (lines 63-124).  Checks whose Python
form is `if re.search(...) and company_name:` carry that conjunction as
their condition; a company name with no specific request falls back to the
summary handler (line 109), which raises. -/
def scrProcessQuery (db : List CompanyRec) (q : String) : Except PyErr ScrResult :=
  let company_name := extractCompanyName db q
  if bsearch patSummaryFor q.toList && company_name.isSome then
    getCompanySummary db (company_name.getD "")
  else if (searchFrom patMetric q.toList).isSome && company_name.isSome then
    getCompanyMetric db (company_name.getD "")
      ⟨(groupGet (searchFrom patMetric q.toList) 3).getD []⟩
  else if (searchFrom patCompareMetric q.toList).isSome
      && 2 ≤ (extractMultipleCompanies db q).length then
    compareCompanyMetrics db (extractMultipleCompanies db q)
      ⟨(groupGet (searchFrom patCompareMetric q.toList) 1).getD []⟩
  else if bsearch patProsCons q.toList && company_name.isSome then
    getProsCons db (company_name.getD "")
  else if bsearch patLenders q.toList && company_name.isSome then
    getLenders db (company_name.getD "")
  else if bsearch patNews q.toList && company_name.isSome then
    getRecentNews db (company_name.getD "")
  else if company_name.isSome then
    getCompanySummary db (company_name.getD "")
  else
    .ok { response_type := "general_help"
          message := "I can help you analyze companies in our bond screener." }

/- ======================================================================
Cascade view of the agents (spec section 4.4) and auxiliary definitions
used by the theorems.
====================================================================== -/

/-- One intent check of an Agent cascade: a trigger on the query text and
the action taken when the trigger fires. -/
structure Rule (σ : Type) where
  trig : String → Bool
  act : String → σ

/-- Linear first-match-wins scan over an ordered rule list with a fallback. -/
def cascade {σ : Type} : List (Rule σ) → (String → σ) → String → σ
  | [], fb, q => fb q
  | r :: rs, fb, q => if r.trig q then r.act q else cascade rs fb q

/-- The rule table of the directory cascade, in declaration order of the checks
in BondDirectoryAgent.process_query. -/
def dirRules : List (Rule (List BondRec → DirResult × List BondRec)) :=
  [⟨dirTrig1, dirAct1⟩, ⟨dirTrig2, dirAct2⟩, ⟨dirTrig3, dirAct3⟩, ⟨dirTrig4, dirAct4⟩,
   ⟨dirTrig5, dirAct5⟩, ⟨dirTrig6, dirAct6⟩, ⟨dirTrig7a, dirAct7a⟩, ⟨dirTrig7b, dirAct7b⟩,
   ⟨dirTrig8, dirAct8⟩, ⟨dirTrig9, dirAct9⟩, ⟨dirTrig10, dirAct10⟩]

/-- The directory fallback (general help, store untouched). -/
def dirFallback (_q : String) (db : List BondRec) : DirResult × List BondRec :=
  (dirGeneralHelp, db)

/-- The rule table of the finder cascade, in declaration order of the checks in
BondFinderAgent.process_query. -/
def finRules : List (Rule (List FindRec → FindResult)) :=
  [⟨finTrig1, finAct1⟩, ⟨finTrig2, finAct2⟩, ⟨finTrig3, finAct3⟩,
   ⟨finTrig4, finAct4⟩, ⟨finTrig5, finAct5⟩]

/-- The finder fallback. -/
def finFallback (_q : String) (_db : List FindRec) : FindResult := finGeneralHelp

/-- Boolean substring test on strings, used to state that a rendered message
does or does not mention a phrase. -/
def infixOfS (pat s : String) : Bool := substrB pat.toList s.toList

/-- The queried name is a strict substring of the stored name. -/
def strictSubstrOf (a b : String) : Prop :=
  substrB a.toList b.toList = true ∧ a ≠ b

/-- The queried name equals the stored name up to letter case only. -/
def caseDiffers (a b : String) : Prop :=
  lowerS a = lowerS b ∧ a ≠ b

/- Semantic matching relation for the regular-expression engine, used to
reason about which trigger patterns subsume which. -/

/-- Relation `Mtch r s`: the regular expression matches exactly the word `s`. -/
inductive Mtch : RE → List Char → Prop where
  | eps : Mtch .eps []
  | cls {p : Char → Bool} {c : Char} : p c = true → Mtch (.cls p) [c]
  | seq {a b : RE} {x y : List Char} : Mtch a x → Mtch b y → Mtch (.seq a b) (x ++ y)
  | altL {a b : RE} {x : List Char} : Mtch a x → Mtch (.alt a b) x
  | altR {a b : RE} {x : List Char} : Mtch b x → Mtch (.alt a b) x
  | starNil {r : RE} : Mtch (.star r) []
  | starCons {r : RE} {x y : List Char} :
      Mtch r x → Mtch (.star r) y → Mtch (.star r) (x ++ y)
  | lstarNil {r : RE} : Mtch (.lstar r) []
  | lstarCons {r : RE} {x y : List Char} :
      Mtch r x → Mtch (.lstar r) y → Mtch (.lstar r) (x ++ y)
  | grp {i : Nat} {r : RE} {x : List Char} : Mtch r x → Mtch (.grp i r) x

/-- Syntactic nullability: can the expression match the empty word? -/
def nullable : RE → Bool
  | .eps => true
  | .cls _ => false
  | .seq a b => nullable a && nullable b
  | .alt a b => nullable a || nullable b
  | .star _ => true
  | .lstar _ => true
  | .grp _ r => nullable r

/-- Well-behaved expressions: every starred body is non-nullable.  All
patterns in the repository satisfy this (their repetition bodies are
character classes or class sequences). -/
def goodRE : RE → Bool
  | .eps => true
  | .cls _ => true
  | .seq a b => goodRE a && goodRE b
  | .alt a b => goodRE a && goodRE b
  | .star r => goodRE r && !nullable r
  | .lstar r => goodRE r && !nullable r
  | .grp _ r => goodRE r

/- Demonstration stores used by concrete evaluations. -/

/-- A sample directory bond row. -/
def bondRow (isin issuer status security rating : String) (coupon : ℚ)
    (red : String) : BondRec :=
  { isin := isin, issuer_name := issuer, issuer_type := "NBFC",
    sector := "Finance", coupon_rate := coupon, instrument_name := "NCD",
    face_value := "1000", issue_size := "50", redemption_date := .s red,
    credit_rating := rating, listing_details := "BSE", key_documents := "IM",
    status := status, security_type := security }

/-- Directory store for the issuer-issuances scenario: three Ugro rows, two
of them Active, plus one unrelated issuer. -/
def demoBondsUgro : List BondRec :=
  [bondRow "INE01" "Ugro Capital Limited" "Active" "Secured" "AA-" 10 "2025-03-15",
   bondRow "INE02" "Ugro Capital Limited" "Active" "Secured" "A+" 11 "2026-05-20",
   bondRow "INE03" "Ugro Capital Limited" "Matured" "Unsecured" "A" 9 "2021-01-10",
   bondRow "INE04" "Keertana Finserv" "Active" "Secured" "A" 12 "2026-07-01"]

/-- Directory store with six rows, used to exercise the preview cap of 5. -/
def demoBondsSix : List BondRec :=
  [bondRow "INE11" "Alpha Finance" "Active" "Secured" "AA" 9 "2025-01-01",
   bondRow "INE12" "Beta Finance" "Active" "Secured" "AA" 10 "2025-02-01",
   bondRow "INE13" "Gamma Finance" "Active" "Secured" "AA" 11 "2025-03-01",
   bondRow "INE14" "Delta Finance" "Active" "Secured" "AA" 12 "2025-04-01",
   bondRow "INE15" "Epsilon Finance" "Active" "Secured" "AA" 13 "2025-05-01",
   bondRow "INE16" "Zeta Finance" "Active" "Secured" "AA" 14 "2025-06-01"]

/-- A sample finder row. -/
def findRow (issuer rating : String) (ymin ymax term : ℚ)
    (sme fix : Bool) : FindRec :=
  { issuer := issuer, rating := rating, yield_min := ymin, yield_max := ymax,
    term_years := term, maturity_date := "2026-01-01",
    available_on_smest := sme, available_on_fixedincome := fix }

/-- Finder store: one issuer whose yield_max sits exactly on the threshold
8, one strictly above, one strictly below. -/
def demoFinder : List FindRec :=
  [findRow "Ugro Capital Limited" "A" 7 8 3 true false,
   findRow "Keertana Finserv" "A-" 9 11 2 true true,
   findRow "Navi Finserv" "A" 6 7 1 false true]

/-- Company store for the screener evaluation. -/
def demoCompanies : List CompanyRec :=
  [{ company_name := "Ugro Capital Limited" }]

/-- Finder store whose only issuer strictly extends the queried name. -/
def demoFinderUgro : List FindRec :=
  [findRow "Ugro Capital Limited" "A" 7 9 3 true false]

/- ======================================================================
Theorems.
====================================================================== -/

/-- Positivity of the size measure. -/
theorem reSize_pos (r : RE) : 1 ≤ reSize r := by
  cases r <;> simp [reSize] <;> omega

/-- The first rule whose trigger fires decides the cascade. -/
theorem cascade_first_match {σ : Type} (rules : List (Rule σ)) (fb : String → σ)
    (q : String) :
    ∀ (i : Nat) (hi : i < rules.length),
      (∀ k (hk : k < i), (rules.get ⟨k, hk.trans hi⟩).trig q = false) →
      (rules.get ⟨i, hi⟩).trig q = true →
      cascade rules fb q = (rules.get ⟨i, hi⟩).act q := by
  induction rules with
  | nil => intro i hi; simp at hi
  | cons r rs ih =>
    intro i hi hprev htrig
    cases i with
    | zero =>
      have ht : r.trig q = true := htrig
      simp [cascade, ht]
    | succ n =>
      have h0 : r.trig q = false := hprev 0 (Nat.succ_pos n)
      have hn : n < rs.length := by simpa using Nat.lt_of_succ_lt_succ hi
      have := ih n hn (fun k hk => hprev (k + 1) (Nat.succ_lt_succ hk)) htrig
      simpa [cascade, h0] using this

/-- The directory process_query is the cascade over its rule table. -/
theorem dirProcess_eq_cascade (db : List BondRec) (q : String) :
    dirProcessQuery db q = cascade dirRules dirFallback q db := by
  simp only [dirProcessQuery, cascade, dirRules, dirFallback, ite_apply]

/-- The finder process_query is the cascade over its rule table. -/
theorem finProcess_eq_cascade (db : List FindRec) (q : String) :
    finProcessQuery db q = cascade finRules finFallback q db := by
  simp only [finProcessQuery, cascade, finRules, finFallback, ite_apply]

/-- C1: in both agents, the intent checks are evaluated in declaration
order, and the first check whose trigger matches is the one whose extractor
and handler run; later checks are not consulted, so overlapping triggers
are distinguished only by declaration order. -/
theorem c1_first_match_wins (qd qf : String) (db : List BondRec) (fdb : List FindRec)
    (i j : Nat) (hi : i < dirRules.length) (hj : j < finRules.length)
    (hdPrev : ∀ k (hk : k < i), (dirRules.get ⟨k, hk.trans hi⟩).trig qd = false)
    (hdTrig : (dirRules.get ⟨i, hi⟩).trig qd = true)
    (hfPrev : ∀ k (hk : k < j), (finRules.get ⟨k, hk.trans hj⟩).trig qf = false)
    (hfTrig : (finRules.get ⟨j, hj⟩).trig qf = true) :
    dirProcessQuery db qd = (dirRules.get ⟨i, hi⟩).act qd db ∧
    finProcessQuery fdb qf = (finRules.get ⟨j, hj⟩).act qf fdb := by
  constructor
  · rw [dirProcess_eq_cascade, cascade_first_match dirRules dirFallback qd i hi hdPrev hdTrig]
  · rw [finProcess_eq_cascade, cascade_first_match finRules finFallback qf j hj hfPrev hfTrig]

/-- Witness for C1: a filtered-search query whose trigger is the third
directory check, and a yield query whose trigger is the third finder check;
the earlier checks reject both. -/
theorem c1_first_match_wins_witness :
    dirProcessQuery demoBondsUgro "Find secured debentures"
        = dirAct3 "Find secured debentures" demoBondsUgro ∧
    finProcessQuery demoFinder "Bonds with yield more than 8"
        = finAct3 "Bonds with yield more than 8" demoFinder := by
  have h := c1_first_match_wins "Find secured debentures" "Bonds with yield more than 8"
    demoBondsUgro demoFinder 2 2 (by decide) (by decide)
    (by decide) (by decide) (by decide) (by decide)
  exact h

/-- The score table unfolded to the five registered agents. -/
theorem scoreTable_eq (q : String) :
    scoreTable q =
      [("bond_directory", scoreOf q (patsOfAgent "bond_directory")),
       ("bond_finder", scoreOf q (patsOfAgent "bond_finder")),
       ("cash_flow", scoreOf q (patsOfAgent "cash_flow")),
       ("bond_screener", scoreOf q (patsOfAgent "bond_screener")),
       ("yield_calculator", scoreOf q (patsOfAgent "yield_calculator"))] := rfl

/-- C2: the router picks the agent with the strictly highest findall-count
total over its pattern set; when every agent scores zero it falls back to
bond_directory; and in all cases it returns one of the registered agents,
so routing is total. -/
theorem c2_router_scoring (q : String) :
    ((∀ a ∈ agentTypes, scoreOf q (patsOfAgent a) = 0) →
        determineAgent q = "bond_directory") ∧
    (∀ a ∈ agentTypes,
      (∀ b ∈ agentTypes, b ≠ a →
          scoreOf q (patsOfAgent b) < scoreOf q (patsOfAgent a)) →
        determineAgent q = a) ∧
    determineAgent q ∈ agentTypes := by
  refine ⟨?_, ?_, ?_⟩
  · intro h
    have h1 := h "bond_directory" (by simp [agentTypes])
    have h2 := h "bond_finder" (by simp [agentTypes])
    have h3 := h "cash_flow" (by simp [agentTypes])
    have h4 := h "bond_screener" (by simp [agentTypes])
    have h5 := h "yield_calculator" (by simp [agentTypes])
    simp [determineAgent, scoreTable_eq, h1, h2, h3, h4, h5]
  · intro a ha hstrict
    have hb1 : "bond_directory" ∈ agentTypes := by simp [agentTypes]
    have hb2 : "bond_finder" ∈ agentTypes := by simp [agentTypes]
    have hb3 : "cash_flow" ∈ agentTypes := by simp [agentTypes]
    have hb4 : "bond_screener" ∈ agentTypes := by simp [agentTypes]
    have hb5 : "yield_calculator" ∈ agentTypes := by simp [agentTypes]
    simp only [agentTypes, List.mem_cons, List.not_mem_nil, or_false] at ha
    set s1 := scoreOf q (patsOfAgent "bond_directory") with hs1
    set s2 := scoreOf q (patsOfAgent "bond_finder") with hs2
    set s3 := scoreOf q (patsOfAgent "cash_flow") with hs3
    set s4 := scoreOf q (patsOfAgent "bond_screener") with hs4
    set s5 := scoreOf q (patsOfAgent "yield_calculator") with hs5
    rcases ha with rfl | rfl | rfl | rfl | rfl
    · have g2 := hstrict _ hb2 (by decide)
      have g3 := hstrict _ hb3 (by decide)
      have g4 := hstrict _ hb4 (by decide)
      have g5 := hstrict _ hb5 (by decide)
      simp only [determineAgent, scoreTable_eq, ← hs1, ← hs2, ← hs3, ← hs4, ← hs5,
        List.map_cons, List.map_nil, List.foldl_cons, List.foldl_nil]
      have hM : max (max (max (max (max 0 s1) s2) s3) s4) s5 = s1 := by omega
      rw [hM, if_pos (by omega : 0 < s1)]
      simp [List.find?]
    · have g1 := hstrict _ hb1 (by decide)
      have g3 := hstrict _ hb3 (by decide)
      have g4 := hstrict _ hb4 (by decide)
      have g5 := hstrict _ hb5 (by decide)
      simp only [determineAgent, scoreTable_eq, ← hs1, ← hs2, ← hs3, ← hs4, ← hs5,
        List.map_cons, List.map_nil, List.foldl_cons, List.foldl_nil]
      have hM : max (max (max (max (max 0 s1) s2) s3) s4) s5 = s2 := by omega
      rw [hM, if_pos (by omega : 0 < s2)]
      have e1 : (s1 == s2) = false := by simp; omega
      simp [List.find?, e1]
    · have g1 := hstrict _ hb1 (by decide)
      have g2 := hstrict _ hb2 (by decide)
      have g4 := hstrict _ hb4 (by decide)
      have g5 := hstrict _ hb5 (by decide)
      simp only [determineAgent, scoreTable_eq, ← hs1, ← hs2, ← hs3, ← hs4, ← hs5,
        List.map_cons, List.map_nil, List.foldl_cons, List.foldl_nil]
      have hM : max (max (max (max (max 0 s1) s2) s3) s4) s5 = s3 := by omega
      rw [hM, if_pos (by omega : 0 < s3)]
      have e1 : (s1 == s3) = false := by simp; omega
      have e2 : (s2 == s3) = false := by simp; omega
      simp [List.find?, e1, e2]
    · have g1 := hstrict _ hb1 (by decide)
      have g2 := hstrict _ hb2 (by decide)
      have g3 := hstrict _ hb3 (by decide)
      have g5 := hstrict _ hb5 (by decide)
      simp only [determineAgent, scoreTable_eq, ← hs1, ← hs2, ← hs3, ← hs4, ← hs5,
        List.map_cons, List.map_nil, List.foldl_cons, List.foldl_nil]
      have hM : max (max (max (max (max 0 s1) s2) s3) s4) s5 = s4 := by omega
      rw [hM, if_pos (by omega : 0 < s4)]
      have e1 : (s1 == s4) = false := by simp; omega
      have e2 : (s2 == s4) = false := by simp; omega
      have e3 : (s3 == s4) = false := by simp; omega
      simp [List.find?, e1, e2, e3]
    · have g1 := hstrict _ hb1 (by decide)
      have g2 := hstrict _ hb2 (by decide)
      have g3 := hstrict _ hb3 (by decide)
      have g4 := hstrict _ hb4 (by decide)
      simp only [determineAgent, scoreTable_eq, ← hs1, ← hs2, ← hs3, ← hs4, ← hs5,
        List.map_cons, List.map_nil, List.foldl_cons, List.foldl_nil]
      have hM : max (max (max (max (max 0 s1) s2) s3) s4) s5 = s5 := by omega
      rw [hM, if_pos (by omega : 0 < s5)]
      have e1 : (s1 == s5) = false := by simp; omega
      have e2 : (s2 == s5) = false := by simp; omega
      have e3 : (s3 == s5) = false := by simp; omega
      have e4 : (s4 == s5) = false := by simp; omega
      simp [List.find?, e1, e2, e3, e4]
  · rcases hf : List.find? (fun x => x.2 == (((scoreTable q).map (fun x => x.2)).foldl max 0))
        (scoreTable q) with _ | x
    · by_cases hp : 0 < ((scoreTable q).map (fun x => x.2)).foldl max 0
      · simp [determineAgent, hf, hp, agentTypes]
      · simp [determineAgent, hp, agentTypes]
    · have hmem := List.mem_of_find?_eq_some hf
      rw [scoreTable_eq] at hmem
      simp only [List.mem_cons, List.not_mem_nil, or_false] at hmem
      by_cases hp : 0 < ((scoreTable q).map (fun x => x.2)).foldl max 0
      · rcases hmem with rfl | rfl | rfl | rfl | rfl <;>
          simp [determineAgent, hf, hp, agentTypes]
      · simp [determineAgent, hp, agentTypes]

/-- Witness for C2: an ISIN query on which only the directory agent scores
(strictly highest), and a query on which every agent scores zero. -/
theorem c2_router_scoring_witness :
    determineAgent "ISIN A1" = "bond_directory" ∧
    determineAgent "hi" = "bond_directory" := by
  have e1 : scoreOf "ISIN A1" (patsOfAgent "bond_directory") = 1 := by decide
  have e2 : scoreOf "ISIN A1" (patsOfAgent "bond_finder") = 0 := by decide
  have e3 : scoreOf "ISIN A1" (patsOfAgent "cash_flow") = 0 := by decide
  have e4 : scoreOf "ISIN A1" (patsOfAgent "bond_screener") = 0 := by decide
  have e5 : scoreOf "ISIN A1" (patsOfAgent "yield_calculator") = 0 := by decide
  have z1 : scoreOf "hi" (patsOfAgent "bond_directory") = 0 := by decide
  have z2 : scoreOf "hi" (patsOfAgent "bond_finder") = 0 := by decide
  have z3 : scoreOf "hi" (patsOfAgent "cash_flow") = 0 := by decide
  have z4 : scoreOf "hi" (patsOfAgent "bond_screener") = 0 := by decide
  have z5 : scoreOf "hi" (patsOfAgent "yield_calculator") = 0 := by decide
  constructor
  · refine (c2_router_scoring "ISIN A1").2.1 "bond_directory" (by simp [agentTypes]) ?_
    intro b hb hne
    simp only [agentTypes, List.mem_cons, List.not_mem_nil, or_false] at hb
    rcases hb with rfl | rfl | rfl | rfl | rfl
    · exact absurd rfl hne
    · rw [e2, e1]; omega
    · rw [e3, e1]; omega
    · rw [e4, e1]; omega
    · rw [e5, e1]; omega
  · refine (c2_router_scoring "hi").1 ?_
    intro b hb
    simp only [agentTypes, List.mem_cons, List.not_mem_nil, or_false] at hb
    rcases hb with rfl | rfl | rfl | rfl | rfl
    · exact z1
    · exact z2
    · exact z3
    · exact z4
    · exact z5

/-- C3: the routing confidence attached to the envelope is 0.5 when none of
the own patterns of the chosen agent matches the query under the secondary
boolean re-check (one re.search per pattern), and otherwise
min(0.5 + (matched / total-for-agent) * 0.5, 1.0); this second pass counts
boolean per-pattern hits, not the findall multiplicities that decided the
routing. -/
theorem c3_confidence_formula (q : String) :
    (orchMeta q).confidence =
      (if boolMatchCount q (patsOfAgent (determineAgent q)) = 0 then 1/2
       else min (1/2 + ((boolMatchCount q (patsOfAgent (determineAgent q)) : ℚ)
            / ((patsOfAgent (determineAgent q)).length : ℚ)) * (1/2)) 1) := by
  simp only [orchMeta]
  exact rfl

/-- C4: for a non-empty filtered set of size n, the free-form filtered
preview is capped at 5 and the yield and rating lists at 10: at or below the
cap the message is exactly the header plus the rows of the whole matched
set with no truncation notice, above the cap the message carries the first
cap rows plus a notice stating exactly n - cap, and in every case the full
matched set is returned under data. -/
theorem c4_display_caps (db : List BondRec) (fdb : List FindRec) (q : String)
    (y : ℚ) (rat : String)
    (hd : filterBondsSet db q ≠ [])
    (hy : fdb.filter (fun b => y < b.yield_max) ≠ [])
    (hr : fdb.filter (fun b => containsCS b.rating rat) ≠ []) :
    ((filterBonds db q).data = some (filterBondsSet db q) ∧
      ((filterBondsSet db q).length ≤ 5 →
        (filterBonds db q).message =
          tplFilteredBonds (toString (filterBondsSet db q).length)
            ((filterBondsSet db q).foldl (fun acc b => acc ++ previewRow b) "")) ∧
      (5 < (filterBondsSet db q).length →
        (filterBonds db q).message =
          tplFilteredBonds (toString (filterBondsSet db q).length)
            ((((filterBondsSet db q).take 5).foldl (fun acc b => acc ++ previewRow b) "")
              ++ "... and " ++ toString ((filterBondsSet db q).length - 5)
              ++ " more bonds.\n"))) ∧
    ((getBondsByYield fdb y).data = some (fdb.filter (fun b => y < b.yield_max)) ∧
      ((fdb.filter (fun b => y < b.yield_max)).length ≤ 10 →
        (getBondsByYield fdb y).message =
          "Bonds with yield more than " ++ ratStr y ++ "%:\n\n"
            ++ "Issuer | Rating | Yield | Available at\n-------|--------|-------|------------\n"
            ++ (fdb.filter (fun b => y < b.yield_max)).foldl
                (fun acc b => acc ++ finderRow fdb b) "") ∧
      (10 < (fdb.filter (fun b => y < b.yield_max)).length →
        (getBondsByYield fdb y).message =
          "Bonds with yield more than " ++ ratStr y ++ "%:\n\n"
            ++ "Issuer | Rating | Yield | Available at\n-------|--------|-------|------------\n"
            ++ (((fdb.filter (fun b => y < b.yield_max)).take 10).foldl
                (fun acc b => acc ++ finderRow fdb b) ""
              ++ "\n... and " ++ toString ((fdb.filter (fun b => y < b.yield_max)).length - 10)
              ++ " more bonds."))) ∧
    ((getBondsByRating fdb rat).data = some (fdb.filter (fun b => containsCS b.rating rat)) ∧
      ((fdb.filter (fun b => containsCS b.rating rat)).length ≤ 10 →
        (getBondsByRating fdb rat).message =
          "Bonds with rating " ++ rat
            ++ ":\n\nIssuer | Rating | Yield | Maturity | Available at\n"
            ++ "-------|--------|-------|----------|------------\n"
            ++ (fdb.filter (fun b => containsCS b.rating rat)).foldl
                (fun acc b => acc ++ b.issuer ++ " | " ++ b.rating ++ " | "
                  ++ yieldRangeCell b ++ " | " ++ b.maturity_date ++ " | "
                  ++ String.intercalate ", " (getPlatformsForIssuer fdb b.issuer) ++ "\n") "") ∧
      (10 < (fdb.filter (fun b => containsCS b.rating rat)).length →
        (getBondsByRating fdb rat).message =
          "Bonds with rating " ++ rat
            ++ ":\n\nIssuer | Rating | Yield | Maturity | Available at\n"
            ++ "-------|--------|-------|----------|------------\n"
            ++ (((fdb.filter (fun b => containsCS b.rating rat)).take 10).foldl
                (fun acc b => acc ++ b.issuer ++ " | " ++ b.rating ++ " | "
                  ++ yieldRangeCell b ++ " | " ++ b.maturity_date ++ " | "
                  ++ String.intercalate ", " (getPlatformsForIssuer fdb b.issuer) ++ "\n") ""
              ++ "\n... and "
              ++ toString ((fdb.filter (fun b => containsCS b.rating rat)).length - 10)
              ++ " more bonds."))) := by
  have hdn : ¬((filterBondsSet db q).length = 0) := by
    simpa [List.length_eq_zero] using hd
  have hyn : (fdb.filter (fun b => y < b.yield_max)).isEmpty = false := by
    simpa [List.isEmpty_iff] using hy
  have hrn : (fdb.filter (fun b => containsCS b.rating rat)).isEmpty = false := by
    simpa [List.isEmpty_iff] using hr
  refine ⟨⟨?_, ?_, ?_⟩, ⟨?_, ?_, ?_⟩, ⟨?_, ?_, ?_⟩⟩
  · simp [filterBonds, hdn]
  · intro hle
    have hnot : ¬(5 < (filterBondsSet db q).length) := by omega
    simp [filterBonds, hdn, hnot, List.take_of_length_le hle]
  · intro hlt
    simp [filterBonds, hdn, hlt]
  · simp [getBondsByYield, hyn]
  · intro hle
    have hnot : ¬(10 < (fdb.filter (fun b => y < b.yield_max)).length) := by omega
    simp [getBondsByYield, hyn, hnot, List.take_of_length_le hle]
  · intro hlt
    simp [getBondsByYield, hyn, hlt]
  · simp [getBondsByRating, hrn]
  · intro hle
    have hnot : ¬(10 < (fdb.filter (fun b => containsCS b.rating rat)).length) := by omega
    simp [getBondsByRating, hrn, hnot, List.take_of_length_le hle]
  · intro hlt
    simp [getBondsByRating, hrn, hlt]

/-- Witness for C4: a six-row directory store overflowing the preview cap,
and finder stores for the yield and rating lists. -/
theorem c4_display_caps_witness :
    (filterBonds demoBondsSix "find bonds").data
        = some (filterBondsSet demoBondsSix "find bonds") ∧
    (getBondsByYield demoFinder 8).data
        = some (demoFinder.filter (fun b => (8 : ℚ) < b.yield_max)) ∧
    (getBondsByRating demoFinder "A").data
        = some (demoFinder.filter (fun b => containsCS b.rating "A")) := by
  have h := c4_display_caps demoBondsSix demoFinder "find bonds" 8 "A"
    (by decide) (by decide) (by decide)
  exact ⟨h.1.1, h.2.1.1, h.2.2.1⟩

/-- C5: thresholds phrased with above / more than are strict lower bounds.
The query `Bonds with yield more than 8` routes to the yield handler with
threshold 8; the rows kept by the yield handler are exactly those with
yield_max strictly greater than the threshold (a row with yield_max equal
to 8 is excluded); and the coupon filter of the directory keeps exactly the
rows with coupon_rate strictly greater than the extracted rate. -/
theorem c5_strict_thresholds (fdb : List FindRec) (db : List BondRec)
    (r : FindRec) (b : BondRec) (y : ℚ) :
    (finProcessQuery fdb "Bonds with yield more than 8" = getBondsByYield fdb 8) ∧
    (r ∈ ((getBondsByYield fdb y).data.getD []) ↔ r ∈ fdb ∧ y < r.yield_max) ∧
    (b ∈ filterBondsSet db "find bonds with coupon above 9%" ↔
        b ∈ db ∧ 9 < b.coupon_rate) := by
  refine ⟨?_, ?_, ?_⟩
  · have hp : pyFloat ['8'] = 8 := by
      have h1 : List.takeWhile digitC ['8'] = ['8'] := by decide
      have h2 : List.dropWhile digitC ['8'] = [] := by decide
      have h3 : parseNatL ['8'] = 8 := by decide
      have h4 : parseNatL [] = 0 := rfl
      simp only [pyFloat, h1, h2, h3, h4]
      norm_num
    have key : finProcessQuery fdb "Bonds with yield more than 8"
        = getBondsByYield fdb (pyFloat ['8']) := by rfl
    rw [key, hp]
  · have hdata : (getBondsByYield fdb y).data.getD []
        = fdb.filter (fun x => y < x.yield_max) := by
      by_cases h : (fdb.filter (fun x => y < x.yield_max)).isEmpty
      · simp [getBondsByYield, h]
        simpa [List.isEmpty_iff] using h
      · simp only [Bool.not_eq_true] at h
        simp [getBondsByYield, h]
    rw [hdata]
    simp [List.mem_filter]
  · have hp : pyFloat ['9'] = 9 := by
      have h1 : List.takeWhile digitC ['9'] = ['9'] := by decide
      have h2 : List.dropWhile digitC ['9'] = [] := by decide
      have h3 : parseNatL ['9'] = 9 := by decide
      have h4 : parseNatL [] = 0 := rfl
      simp only [pyFloat, h1, h2, h3, h4]
      norm_num
    have hset : filterBondsSet db "find bonds with coupon above 9%"
        = db.filter (fun x => pyFloat ['9'] < x.coupon_rate) := by rfl
    rw [hset]
    simp only [hp]
    simp [List.mem_filter]

/-- C6: issuer issuances select rows by case-insensitive substring
containment on issuer_name; the active count is the number of matched rows
with status Active and the matured count is total minus active, as rendered
in the message; the scenario query extracts the issuer `Ugro Capital`; and
on a store with three matching rows of which two are Active the message
states three bonds in total, two active, one matured, with `Ugro` matching
`Ugro Capital Limited`. -/
theorem c6_issuer_issuances (db : List BondRec) (issuer : String) (b : BondRec)
    (hne : db.filter (fun x => containsCI x.issuer_name issuer) ≠ []) :
    (b ∈ ((getIssuerIssuances db issuer).data.getD []) ↔
        b ∈ db ∧ containsCI b.issuer_name issuer = true) ∧
    ((getIssuerIssuances db issuer).message =
      tplIssuerIssuances issuer
        (toString (db.filter (fun x => containsCI x.issuer_name issuer)).length)
        (toString ((db.filter (fun x => containsCI x.issuer_name issuer)).filter
            (fun x => x.status == "Active")).length)
        (toString ((db.filter (fun x => containsCI x.issuer_name issuer)).length
          - ((db.filter (fun x => containsCI x.issuer_name issuer)).filter
              (fun x => x.status == "Active")).length))
        ((db.filter (fun x => containsCI x.issuer_name issuer)).foldl
          (fun acc x => acc ++ issuanceRow x) "")) ∧
    ((dirProcessQuery db "Show me all issuances by Ugro Capital").1
        = getIssuerIssuances db "Ugro Capital") ∧
    (infixOfS "has issued 3 bonds in total"
        (getIssuerIssuances demoBondsUgro "Ugro Capital").message = true ∧
      infixOfS "2 are active, and 1 have matured"
        (getIssuerIssuances demoBondsUgro "Ugro Capital").message = true ∧
      containsCI "Ugro Capital Limited" "Ugro" = true) := by
  have hmt : (db.filter (fun x => containsCI x.issuer_name issuer)).isEmpty = false := by
    simpa [List.isEmpty_iff] using hne
  refine ⟨?_, ?_, ?_, ?_⟩
  · simp [getIssuerIssuances, hmt, List.mem_filter]
  · simp [getIssuerIssuances, hmt]
  · rfl
  · refine ⟨by decide, by decide, by decide⟩

/-- Witness for C6: the scenario store instantiated. -/
theorem c6_issuer_issuances_witness :
    infixOfS "has issued 3 bonds in total"
        (getIssuerIssuances demoBondsUgro "Ugro Capital").message = true ∧
    infixOfS "2 are active, and 1 have matured"
        (getIssuerIssuances demoBondsUgro "Ugro Capital").message = true ∧
    containsCI "Ugro Capital Limited" "Ugro" = true :=
  (c6_issuer_issuances demoBondsUgro "Ugro Capital"
    (bondRow "INE01" "Ugro Capital Limited" "Active" "Secured" "AA-" 10 "2025-03-15")
    (by decide)).2.2.2

/-- C7 (code defect): a summary query with a validated company name reaches
_get_company_summary, whose corrupted body evaluates the undefined name
isin, so process_query raises NameError instead of returning the typed
Result the spec promises for every query. -/
theorem c7_summary_query_raises :
    scrProcessQuery demoCompanies "Give me a summary about Ugro limited"
      = Except.error (PyErr.nameError "isin") := by rfl

/-- C8 (code defect): the maturity-year handler reassigns the
redemption_date column of the stored bonds frame in place, so the Record
Store differs after process_query returns, contradicting the read-only
lifecycle the spec states. -/
theorem c8_maturity_query_mutates_store :
    (dirProcessQuery demoBondsUgro "Which bonds are maturing in 2025?").2
      ≠ demoBondsUgro := by decide

/-- C10: the platform-availability handler selects the rows of the issuer by
case-insensitive substring containment, but the platform list is computed
by exact equality on the issuer column; for a queried name that is a strict
substring of (or differs in case from) every stored issuer value, bonds are
found, yet the platform list is empty and the rendered message carries an
empty platform enumeration. -/
theorem c10_platform_exact_vs_substring (db : List FindRec) (issuer : String)
    (hall : ∀ x ∈ db, strictSubstrOf issuer x.issuer ∨ caseDiffers issuer x.issuer)
    (hsome : ∃ x ∈ db, containsCI x.issuer issuer = true) :
    (getPlatformAvailability db issuer).response_type = "platform_availability" ∧
    (getPlatformAvailability db issuer).platforms = some [] ∧
    (getPlatformAvailability db issuer).message
      = tplPlatformAvail issuer ""
          (ratStr (qListMin ((db.filter (fun x => containsCI x.issuer issuer)).map
              (fun x => x.yield_min))) ++ "%-"
            ++ ratStr (qListMax ((db.filter (fun x => containsCI x.issuer issuer)).map
              (fun x => x.yield_max))) ++ "%") := by
  have hex : db.filter (fun x => x.issuer == issuer) = [] := by
    rw [List.filter_eq_nil_iff]
    intro x hx
    have hne : issuer ≠ x.issuer := by
      rcases hall x hx with ⟨_, hne⟩ | ⟨_, hne⟩ <;> exact hne
    simp
    exact fun he => hne he.symm
  have hplat : getPlatformsForIssuer db issuer = [] := by
    simp [getPlatformsForIssuer, hex]
  have hfil : (db.filter (fun x => containsCI x.issuer issuer)).isEmpty = false := by
    rcases hsome with ⟨x, hx, hc⟩
    have hxm : x ∈ db.filter (fun e => containsCI e.issuer issuer) :=
      List.mem_filter.mpr ⟨hx, hc⟩
    cases hmm : db.filter (fun e => containsCI e.issuer issuer) with
    | nil => rw [hmm] at hxm; simp at hxm
    | cons h t => simp [hmm]
  refine ⟨?_, ?_, ?_⟩
  · simp [getPlatformAvailability, hfil]
  · simp [getPlatformAvailability, hfil, hplat]
  · simp [getPlatformAvailability, hfil, hplat]
    rfl

/-- Witness for C10: the queried name Ugro is a strict substring of the
only stored issuer, bonds are found, and the platform list is empty. -/
theorem c10_platform_exact_vs_substring_witness :
    (getPlatformAvailability demoFinderUgro "Ugro").response_type
        = "platform_availability" ∧
    (getPlatformAvailability demoFinderUgro "Ugro").platforms = some [] := by
  have h := c10_platform_exact_vs_substring demoFinderUgro "Ugro"
    (by
      intro x hx
      simp [demoFinderUgro] at hx
      subst hx
      exact Or.inl ⟨by decide, by decide⟩)
    ⟨findRow "Ugro Capital Limited" "A" 7 9 3 true false, by decide, by decide⟩
  exact ⟨h.1, h.2.1⟩

/-- A regular expression that matches the empty word is nullable. -/
theorem nullable_of_mtch_nil {r : RE} {x : List Char} (h : Mtch r x) (hx : x = []) :
    nullable r = true := by
  induction h with
  | eps => simp [nullable]
  | cls hp => simp at hx
  | seq ha hb iha ihb =>
    rcases List.append_eq_nil.mp hx with ⟨h1, h2⟩
    simp [nullable, iha h1, ihb h2]
  | altL ha ih => simp [nullable, ih hx]
  | altR hb ih => simp [nullable, ih hx]
  | starNil => simp [nullable]
  | starCons ha hb iha ihb => simp [nullable]
  | lstarNil => simp [nullable]
  | lstarCons ha hb iha ihb => simp [nullable]
  | grp hr ih => simp [nullable, ih hx]

/-- A non-nullable expression only matches nonempty words. -/
theorem mtch_ne_nil {r : RE} {x : List Char} (h : Mtch r x)
    (hn : nullable r = false) : x ≠ [] := by
  intro hx
  rw [nullable_of_mtch_nil h hx] at hn
  simp at hn

/-- Soundness of the engine: every element of the match list splits the
input into a matched prefix and the recorded remainder. -/
theorem mtchF_sound :
    ∀ (fuel : Nat) (r : RE) (s : List Char) (x : List Char × GEnv),
      x ∈ mtchF fuel r s → ∃ a, s = a ++ x.1 ∧ Mtch r a := by
  intro fuel
  induction fuel with
  | zero => intro r s x hx; simp [mtchF] at hx
  | succ n ih =>
    intro r s x hx
    cases r with
    | eps =>
      simp [mtchF] at hx
      exact ⟨[], by simp [hx], .eps⟩
    | cls p =>
      cases s with
      | nil => simp [mtchF] at hx
      | cons c rest =>
        by_cases hp : p c
        · simp [mtchF, hp] at hx
          exact ⟨[c], by simp [hx], .cls hp⟩
        · simp [mtchF, hp] at hx
    | alt a b =>
      simp [mtchF] at hx
      rcases hx with hx | hx
      · obtain ⟨w, hs, hm⟩ := ih a s x hx
        exact ⟨w, hs, .altL hm⟩
      · obtain ⟨w, hs, hm⟩ := ih b s x hx
        exact ⟨w, hs, .altR hm⟩
    | grp i r' =>
      simp only [mtchF, List.mem_map] at hx
      obtain ⟨y, hy, hveq⟩ := hx
      subst hveq
      obtain ⟨w, hs, hm⟩ := ih r' s y hy
      exact ⟨w, by simpa using hs, .grp hm⟩
    | seq a b =>
      simp only [mtchF, List.mem_flatMap, List.mem_map] at hx
      obtain ⟨u, hu, v, hv, hveq⟩ := hx
      subst hveq
      obtain ⟨w1, hs1, hm1⟩ := ih a s u hu
      obtain ⟨w2, hs2, hm2⟩ := ih b u.1 v hv
      refine ⟨w1 ++ w2, ?_, .seq hm1 hm2⟩
      simp only [hs1, hs2, List.append_assoc]
    | star r' =>
      simp only [mtchF, List.mem_append, List.mem_flatMap, List.mem_map,
        List.mem_filter, List.mem_singleton] at hx
      rcases hx with ⟨u, ⟨hu, hlen⟩, v, hv, hveq⟩ | hx
      · subst hveq
        obtain ⟨w1, hs1, hm1⟩ := ih r' s u hu
        obtain ⟨w2, hs2, hm2⟩ := ih (.star r') u.1 v hv
        refine ⟨w1 ++ w2, ?_, .starCons hm1 hm2⟩
        simp only [hs1, hs2, List.append_assoc]
      · exact ⟨[], by simp [hx], .starNil⟩
    | lstar r' =>
      simp only [mtchF, List.mem_cons, List.mem_flatMap, List.mem_map,
        List.mem_filter] at hx
      rcases hx with hx | ⟨u, ⟨hu, hlen⟩, v, hv, hveq⟩
      · exact ⟨[], by simp [hx], .lstarNil⟩
      · subst hveq
        obtain ⟨w1, hs1, hm1⟩ := ih r' s u hu
        obtain ⟨w2, hs2, hm2⟩ := ih (.lstar r') u.1 v hv
        refine ⟨w1 ++ w2, ?_, .lstarCons hm1 hm2⟩
        simp only [hs1, hs2, List.append_assoc]

/-- Completeness of the engine for well-behaved expressions: a semantic
match of a prefix is found by the engine whenever the fuel exceeds the size
measure. -/
theorem mtchF_complete {r : RE} {a : List Char} (h : Mtch r a) :
    goodRE r = true → ∀ (t : List Char) (fuel : Nat),
      reSize r + (a ++ t).length < fuel → ∃ g, (t, g) ∈ mtchF fuel r (a ++ t) := by
  induction h with
  | eps =>
    intro _ t fuel hf
    cases fuel with
    | zero => omega
    | succ n => exact ⟨[], by simp [mtchF]⟩
  | @cls p c hp =>
    intro _ t fuel hf
    cases fuel with
    | zero => omega
    | succ n => exact ⟨[], by simp [mtchF, hp]⟩
  | @seq ra rb x y hmx hmy ihx ihy =>
    intro hg t fuel hf
    simp only [goodRE, Bool.and_eq_true] at hg
    cases fuel with
    | zero => omega
    | succ n =>
      have hra := reSize_pos ra
      have hrb := reSize_pos rb
      simp only [reSize, List.length_append] at hf
      obtain ⟨g1, hg1⟩ := ihx hg.1 (y ++ t) n
        (by simp [List.length_append]; omega)
      obtain ⟨g2, hg2⟩ := ihy hg.2 t n
        (by simp [List.length_append]; omega)
      refine ⟨g2 ++ g1, ?_⟩
      have e : (x ++ y) ++ t = x ++ (y ++ t) := by simp [List.append_assoc]
      rw [e]
      simp only [mtchF, List.mem_flatMap, List.mem_map]
      exact ⟨(y ++ t, g1), hg1, (t, g2), hg2, rfl⟩
  | @altL ra rb x hmx ihx =>
    intro hg t fuel hf
    simp only [goodRE, Bool.and_eq_true] at hg
    cases fuel with
    | zero => omega
    | succ n =>
      have hrb := reSize_pos rb
      simp only [reSize] at hf
      obtain ⟨g1, hg1⟩ := ihx hg.1 t n (by simp [List.length_append] at hf ⊢; omega)
      exact ⟨g1, by simp only [mtchF, List.mem_append]; exact Or.inl hg1⟩
  | @altR ra rb x hmx ihx =>
    intro hg t fuel hf
    simp only [goodRE, Bool.and_eq_true] at hg
    cases fuel with
    | zero => omega
    | succ n =>
      have hra := reSize_pos ra
      simp only [reSize] at hf
      obtain ⟨g1, hg1⟩ := ihx hg.2 t n (by simp [List.length_append] at hf ⊢; omega)
      exact ⟨g1, by simp only [mtchF, List.mem_append]; exact Or.inr hg1⟩
  | @starNil r' =>
    intro _ t fuel hf
    cases fuel with
    | zero => omega
    | succ n =>
      refine ⟨[], ?_⟩
      simp only [mtchF, List.mem_append, List.mem_singleton]
      exact Or.inr rfl
  | @starCons r' x y hmx hmy ihx ihy =>
    intro hg t fuel hf
    have hg' := hg
    simp only [goodRE, Bool.and_eq_true, Bool.not_eq_true'] at hg
    cases fuel with
    | zero => omega
    | succ n =>
      have hxne : x ≠ [] := mtch_ne_nil hmx hg.2
      have hxlen : 1 ≤ x.length := by
        cases x with
        | nil => exact absurd rfl hxne
        | cons c cs => simp
      have hr' := reSize_pos r'
      simp only [reSize, List.length_append] at hf
      obtain ⟨g1, hg1⟩ := ihx hg.1 (y ++ t) n (by simp [List.length_append]; omega)
      obtain ⟨g2, hg2⟩ := ihy hg' t n (by simp [reSize, List.length_append]; omega)
      refine ⟨g2 ++ g1, ?_⟩
      have e : (x ++ y) ++ t = x ++ (y ++ t) := by simp [List.append_assoc]
      rw [e]
      simp only [mtchF, List.mem_append, List.mem_flatMap, List.mem_map, List.mem_filter]
      refine Or.inl ⟨(y ++ t, g1), ⟨hg1, ?_⟩, (t, g2), hg2, rfl⟩
      simp [List.length_append]
      omega
  | @lstarNil r' =>
    intro _ t fuel hf
    cases fuel with
    | zero => omega
    | succ n =>
      refine ⟨[], ?_⟩
      simp only [mtchF, List.mem_cons]
      exact Or.inl rfl
  | @lstarCons r' x y hmx hmy ihx ihy =>
    intro hg t fuel hf
    have hg' := hg
    simp only [goodRE, Bool.and_eq_true, Bool.not_eq_true'] at hg
    cases fuel with
    | zero => omega
    | succ n =>
      have hxne : x ≠ [] := mtch_ne_nil hmx hg.2
      have hxlen : 1 ≤ x.length := by
        cases x with
        | nil => exact absurd rfl hxne
        | cons c cs => simp
      have hr' := reSize_pos r'
      simp only [reSize, List.length_append] at hf
      obtain ⟨g1, hg1⟩ := ihx hg.1 (y ++ t) n (by simp [List.length_append]; omega)
      obtain ⟨g2, hg2⟩ := ihy hg' t n (by simp [reSize, List.length_append]; omega)
      refine ⟨g2 ++ g1, ?_⟩
      have e : (x ++ y) ++ t = x ++ (y ++ t) := by simp [List.append_assoc]
      rw [e]
      simp only [mtchF, List.mem_cons, List.mem_flatMap, List.mem_map, List.mem_filter]
      refine Or.inr ⟨(y ++ t, g1), ⟨hg1, ?_⟩, (t, g2), hg2, rfl⟩
      simp [List.length_append]
      omega
  | @grp i r' x hmx ihx =>
    intro hg t fuel hf
    simp only [goodRE] at hg
    cases fuel with
    | zero => omega
    | succ n =>
      simp only [reSize] at hf
      obtain ⟨g1, hg1⟩ := ihx hg t n (by simp [List.length_append] at hf ⊢; omega)
      refine ⟨(i, (x ++ t).take ((x ++ t).length - t.length)) :: g1, ?_⟩
      simp only [mtchF, List.mem_map]
      exact ⟨(t, g1), hg1, rfl⟩

/-- Completeness of boolean search: if some factor of the input matches,
the search succeeds. -/
theorem bsearch_complete {r : RE} (hg : goodRE r = true) :
    ∀ (u a v : List Char), Mtch r a → bsearch r (u ++ a ++ v) = true := by
  intro u
  induction u with
  | nil =>
    intro a v hm
    obtain ⟨g, hgm⟩ := mtchF_complete hm hg v (reSize r + (a ++ v).length + 1) (by omega)
    have hne : mtch r (a ++ v) ≠ [] := by
      intro hnil
      rw [mtch] at hnil
      rw [hnil] at hgm
      simp at hgm
    cases hs : a ++ v with
    | nil =>
      rw [List.nil_append, hs]
      rw [hs] at hne
      simp only [bsearch, searchFrom]
      cases hmt : mtch r [] with
      | nil => exact absurd hmt hne
      | cons y l => simp [hmt]
    | cons c rest =>
      rw [List.nil_append, hs]
      rw [hs] at hne
      simp only [bsearch, searchFrom]
      cases hmt : mtch r (c :: rest) with
      | nil => exact absurd hmt hne
      | cons y l => simp [hmt]
  | cons c u' ih =>
    intro a v hm
    have e : (c :: u') ++ a ++ v = c :: (u' ++ a ++ v) := by simp
    rw [e]
    simp only [bsearch, searchFrom]
    cases hmt : (mtch r (c :: (u' ++ a ++ v))).head? with
    | some y => simp
    | none => exact ih a v hm

/-- Soundness of search: a successful search splits the input around a
matched factor. -/
theorem searchFrom_sound {r : RE} :
    ∀ (s : List Char) (x : List Char × GEnv), searchFrom r s = some x →
      ∃ u a, s = u ++ a ++ x.1 ∧ Mtch r a := by
  intro s
  induction s with
  | nil =>
    intro x hx
    simp only [searchFrom] at hx
    have hmem : x ∈ mtch r [] := by
      cases hmt : mtch r [] with
      | nil => rw [hmt] at hx; simp at hx
      | cons y l =>
        rw [hmt] at hx
        simp at hx
        simp [hx, hmt]
    obtain ⟨a, hs, hm⟩ := mtchF_sound _ _ _ _ hmem
    exact ⟨[], a, by simpa using hs, hm⟩
  | cons c rest ih =>
    intro x hx
    simp only [searchFrom] at hx
    cases hmt : (mtch r (c :: rest)).head? with
    | some y =>
      rw [hmt] at hx
      simp at hx
      have hmem : x ∈ mtch r (c :: rest) := by
        cases hl : mtch r (c :: rest) with
        | nil => rw [hl] at hmt; simp at hmt
        | cons z l =>
          rw [hl] at hmt
          simp at hmt
          rw [← hx, ← hmt]
          simp [hl]
      obtain ⟨a, hs, hm⟩ := mtchF_sound _ _ _ _ hmem
      exact ⟨[], a, by simpa using hs, hm⟩
    | none =>
      rw [hmt] at hx
      simp at hx
      obtain ⟨u, a, hs, hm⟩ := ih x hx
      exact ⟨c :: u, a, by simp [hs], hm⟩

/-- Capture groups are transparent to the matching relation. -/
theorem mtch_grp_iff {i : Nat} {r : RE} {x : List Char} :
    Mtch (.grp i r) x ↔ Mtch r x := by
  constructor
  · intro h
    cases h with
    | grp h => exact h
  · exact .grp

/-- The ISIN sub-pattern matches the same words whatever its group number. -/
theorem mtch_isinSub_swap {i j : Nat} {x : List Char} (h : Mtch (isinSub i) x) :
    Mtch (isinSub j) x := by
  unfold isinSub at h ⊢
  cases h with
  | seq h1 h2 =>
    cases h2 with
    | seq h2a h2b =>
      exact .seq h1 (.seq h2a (mtch_grp_iff.mpr (mtch_grp_iff.mp h2b)))

/-- Any search hit of a pattern of the shape `PRE.+ISIN\s+([A-Z0-9]+)`
contains a factor matching the plain ISIN trigger, so the ISIN trigger also
fires. -/
theorem bsearch_isin_of_embedded (pre : RE) (q : List Char)
    (h : bsearch (.seq pre (.seq (rePlus (.cls dotC)) (isinSub 2))) q = true) :
    bsearch patIsin q = true := by
  obtain ⟨x, hx⟩ : ∃ x, searchFrom (.seq pre (.seq (rePlus (.cls dotC)) (isinSub 2))) q
      = some x := by
    cases hsf : searchFrom (.seq pre (.seq (rePlus (.cls dotC)) (isinSub 2))) q with
    | none => rw [bsearch, hsf] at h; simp at h
    | some y => exact ⟨y, rfl⟩
  obtain ⟨u, a, hq, hm⟩ := searchFrom_sound q x hx
  cases hm with
  | seq hpre hrest =>
    rename_i p drest
    cases hrest with
    | seq hdot hisin =>
      rename_i d i
      have hisin1 : Mtch patIsin i := mtch_isinSub_swap hisin
      have := bsearch_complete (show goodRE patIsin = true from by decide)
        (u ++ (p ++ d)) i x.1 hisin1
      have e : (u ++ (p ++ d)) ++ i ++ x.1 = u ++ (p ++ (d ++ i)) ++ x.1 := by
        simp [List.append_assoc]
      rw [e] at this
      rw [hq]
      exact this

/-- C9 (implicit): whenever a query contains an ISIN-shaped token (the
trigger of the first directory check fires), process_query returns from that
first check; and the cash-flow, security, trustee, listing and face-value
triggers each imply the first trigger, so those five later branches can
never run for any query. -/
theorem c9_isin_check_shadows_later (q : String) (db : List BondRec) :
    (dirTrig1 q = true → dirProcessQuery db q = dirAct1 q db) ∧
    (bsearch patCashFlowIsin q.toList = true → dirTrig1 q = true) ∧
    (bsearch patSecurityIsin q.toList = true → dirTrig1 q = true) ∧
    (bsearch patTrusteeIsin q.toList = true → dirTrig1 q = true) ∧
    (bsearch patListingIsin q.toList = true → dirTrig1 q = true) ∧
    (bsearch patFaceValueIsin q.toList = true → dirTrig1 q = true) := by
  have hb : ∀ p : RE,
      bsearch (.seq p (.seq (rePlus (.cls dotC)) (isinSub 2))) q.toList = true →
      dirTrig1 q = true := by
    intro p hp
    show (searchFrom patIsin q.toList).isSome = true
    exact bsearch_isin_of_embedded p q.toList hp
  refine ⟨?_, hb _, hb _, hb _, hb _, hb _⟩
  intro h
  simp [dirProcessQuery, h]

/-- Witness for C9: a cash-flow query carrying an ISIN token; both the
cash-flow trigger and the first trigger fire, and process_query returns
from the first check. -/
theorem c9_isin_check_shadows_later_witness :
    dirProcessQuery demoBondsUgro "Show cash flow schedule for ISIN INE01"
        = dirAct1 "Show cash flow schedule for ISIN INE01" demoBondsUgro ∧
    dirTrig1 "Show cash flow schedule for ISIN INE01" = true := by
  have h := c9_isin_check_shadows_later "Show cash flow schedule for ISIN INE01" demoBondsUgro
  exact ⟨h.1 (by decide), h.2.1 (by decide)⟩
